import Mathlib

/-!
Verification development for a multi-backend database profiling tool.

The embedding models, in Lean, the pure content of the repository's
`database` package: the connector factory (`db_factory.py`), the
catalog-introspection queries and per-check SQL predicates of
`connectors.py` (evaluated against an explicit table model), and the
rule-executor loop `run_quality_tests` of `quality.py` (with each
backend call modelled as a fallible function, mirroring the per-check
`try/except` structure of the source).
-/

namespace DataProfiler

/-- Python `str.lower()` as used by the factory, modelled per character. -/
def pyLower (s : String) : String := ⟨s.data.map Char.toLower⟩

/-- Python `str.upper()` as used by the Oracle connector on schema names. -/
def pyUpper (s : String) : String := ⟨s.data.map Char.toUpper⟩

/-- Python `str.strip()`: drop whitespace on both ends. -/
def pyStrip (s : String) : String :=
  ⟨((s.data.dropWhile Char.isWhitespace).reverse.dropWhile Char.isWhitespace).reverse⟩

/-- `quality.py` PASS_ICON. -/
def PASS_ICON : String := "✅"

/-- `quality.py` FAIL_ICON. -/
def FAIL_ICON : String := "❌"

/-- The error-text annotation several check handlers attach on exception,
mirroring the Python f-string FAIL_ICON followed by the message in parens. -/
def failText (e : String) : String := FAIL_ICON ++ " (" ++ e ++ ")"

/-- Numeric value of a digit character. -/
def digitVal (c : Char) : Nat := c.toNat - 48

/-- The 1-based digit of an 11-character value, read from a char list. -/
def dAt (l : List Char) (i : Nat) : Nat := digitVal (l.getD (i - 1) '0')

/-- Sum of the digits at 1-based odd positions 1,3,5,7,9. -/
def tcknOddSum (l : List Char) : Nat :=
  dAt l 1 + dAt l 3 + dAt l 5 + dAt l 7 + dAt l 9

/-- Sum of the digits at 1-based even positions 2,4,6,8. -/
def tcknEvenSum (l : List Char) : Nat :=
  dAt l 2 + dAt l 4 + dAt l 6 + dAt l 8

/-- Sum of the first ten digits. -/
def tcknSum10 (l : List Char) : Nat :=
  dAt l 1 + dAt l 2 + dAt l 3 + dAt l 4 + dAt l 5 +
  dAt l 6 + dAt l 7 + dAt l 8 + dAt l 9 + dAt l 10

/-- The first check-digit equation shared by the three dialect queries:
`((odd*7 - even) % 10) = digit10`, where `%` is the dialect's truncated
remainder (Postgres `%`, SQL Server `%`, Oracle `MOD`), i.e. `Int.tmod`. -/
def tcknCond1 (l : List Char) : Bool :=
  Int.tmod ((tcknOddSum l : Int) * 7 - (tcknEvenSum l : Int)) 10 == (dAt l 10 : Int)

/-- The second check-digit equation shared by the three dialect queries:
`(sum of first ten digits) % 10 = digit11`. -/
def tcknCond2 (l : List Char) : Bool :=
  Int.tmod (tcknSum10 l : Int) 10 == (dAt l 11 : Int)

/-- PostgresConnector.get_tckn_violation_count validity predicate:
`LENGTH = 11` and the anchored one-or-more digit-class regex (nonempty,
all digits) and first character not zero, plus the two check-digit equations. -/
def tcknValidPg (s : String) : Bool :=
  let l := s.data
  l.length == 11 && (!l.isEmpty && l.all Char.isDigit) &&
    l.getD 0 ' ' != '0' && tcknCond1 l && tcknCond2 l

/-- MSSQLConnector.get_tckn_violation_count validity predicate:
`LEN = 11 AND col NOT LIKE 0-prefix AND col LIKE` eleven `[0-9]` classes
(exactly eleven digit characters) plus the two check-digit equations. -/
def tcknValidMssql (s : String) : Bool :=
  let l := s.data
  l.length == 11 && !(match l with | c :: _ => c == '0' | [] => false) &&
    (l.length == 11 && l.all Char.isDigit) && tcknCond1 l && tcknCond2 l

/-- OracleConnector.get_tckn_violation_count validity predicate:
`LENGTH = 11 AND REGEXP_LIKE(col, anchored digit class) AND SUBSTR(col,1,1) <> 0`
plus the two check-digit equations. -/
def tcknValidOracle (s : String) : Bool :=
  let l := s.data
  l.length == 11 && (!l.isEmpty && l.all Char.isDigit) &&
    l.getD 0 ' ' != '0' && tcknCond1 l && tcknCond2 l

/-- The claim's reading of the algorithm, with mathematical `mod 10`
(result always in 0..9, i.e. `Int.emod`): 11 digits, first digit not zero,
10th digit = (odd-sum * 7 - even-sum) mod 10, 11th digit = (first ten) mod 10. -/
def tcknClaimValid (s : String) : Bool :=
  let l := s.data
  l.length == 11 && l.all Char.isDigit && l.getD 0 ' ' != '0' &&
    (Int.emod ((tcknOddSum l : Int) * 7 - (tcknEvenSum l : Int)) 10 == (dAt l 10 : Int)) &&
    (Int.emod (tcknSum10 l : Int) 10 == (dAt l 11 : Int))

/-- The amended validity condition: the claim's conditions plus the proviso
that the weighted difference is nonnegative or a multiple of ten, which is
exactly where the SQL truncated remainder agrees with the mathematical mod. -/
def tcknValidAmendedCond (s : String) : Bool :=
  tcknClaimValid s &&
    (decide ((tcknEvenSum s.data : Int) ≤ (tcknOddSum s.data : Int) * 7) ||
      Int.tmod ((tcknOddSum s.data : Int) * 7 - (tcknEvenSum s.data : Int)) 10 == 0)

/-- Replace the i-th character (0-based) of a string, used to model altering
one digit of a stored value. -/
def setCharAt (s : String) (i : Nat) (c : Char) : String := ⟨s.data.set i c⟩

/-- Character in an inclusive range. -/
def chBetween (lo hi c : Char) : Bool := lo ≤ c && c ≤ hi

/-- The DD.MM.YYYY pattern of get_text_column_date_formats:
day class 0-3 then digit, dot, month class 0-1 then digit, dot,
year class 1-2 then three digits. -/
def patDDdotMM (l : List Char) : Bool :=
  match l with
  | [a, b, p, c, d, q, e, f, g, h] =>
    chBetween '0' '3' a && b.isDigit && p == '.' &&
    chBetween '0' '1' c && d.isDigit && q == '.' &&
    chBetween '1' '2' e && f.isDigit && g.isDigit && h.isDigit
  | _ => false

/-- The YYYY-MM-DD pattern of get_text_column_date_formats. -/
def patYYYYdashMM (l : List Char) : Bool :=
  match l with
  | [e, f, g, h, p, c, d, q, a, b] =>
    chBetween '1' '2' e && f.isDigit && g.isDigit && h.isDigit && p == '-' &&
    chBetween '0' '1' c && d.isDigit && q == '-' &&
    chBetween '0' '3' a && b.isDigit
  | _ => false

/-- The MM/DD/YYYY pattern of get_text_column_date_formats. -/
def patMMslashDD (l : List Char) : Bool :=
  match l with
  | [c, d, p, a, b, q, e, f, g, h] =>
    chBetween '0' '1' c && d.isDigit && p == '/' &&
    chBetween '0' '3' a && b.isDigit && q == '/' &&
    chBetween '1' '2' e && f.isDigit && g.isDigit && h.isDigit
  | _ => false

/-- The DD/MM/YYYY pattern of get_text_column_date_formats. -/
def patDDslashMM (l : List Char) : Bool :=
  match l with
  | [a, b, p, c, d, q, e, f, g, h] =>
    chBetween '0' '3' a && b.isDigit && p == '/' &&
    chBetween '0' '1' c && d.isDigit && q == '/' &&
    chBetween '1' '2' e && f.isDigit && g.isDigit && h.isDigit
  | _ => false

/-- The YYYY.MM.DD pattern of get_text_column_date_formats. -/
def patYYYYdotMM (l : List Char) : Bool :=
  match l with
  | [e, f, g, h, p, c, d, q, a, b] =>
    chBetween '1' '2' e && f.isDigit && g.isDigit && h.isDigit && p == '.' &&
    chBetween '0' '1' c && d.isDigit && q == '.' &&
    chBetween '0' '3' a && b.isDigit
  | _ => false

/-- The CASE expression labelling a value with the first matching format,
in the source's WHEN order, else Unknown. -/
def classifyDateFormat (s : String) : String :=
  if patDDdotMM s.data then "DD.MM.YYYY"
  else if patYYYYdashMM s.data then "YYYY-MM-DD"
  else if patMMslashDD s.data then "MM/DD/YYYY"
  else if patDDslashMM s.data then "DD/MM/YYYY"
  else if patYYYYdotMM s.data then "YYYY.MM.DD"
  else "Unknown"

/-- The is_valid CASE of get_text_column_date_formats: a non-null value is
valid when some recognized pattern matches (TO_DATE of a non-null argument
is modelled as non-null; a backend error on a calendar-invalid value is an
error of the whole query, outside this per-value predicate). -/
def matchesAnyDatePattern (s : String) : Bool :=
  patDDdotMM s.data || patYYYYdashMM s.data || patMMslashDD s.data ||
  patDDslashMM s.data || patYYYYdotMM s.data

/-- One replacement pass of Python str.replace over a char list, with fuel
(the fuel is instantiated with the list length, which bounds the recursion). -/
def replaceFuel : Nat → List Char → List Char → List Char → List Char
  | 0, l, _, _ => l
  | _ + 1, [], _, _ => []
  | fuel + 1, c :: rest, pat, rep =>
    if !pat.isEmpty && pat.isPrefixOf (c :: rest) then
      rep ++ replaceFuel fuel ((c :: rest).drop pat.length) pat rep
    else c :: replaceFuel fuel rest pat rep

/-- Python str.replace (all occurrences, left to right). -/
def pyReplace (s pat rep : String) : String :=
  ⟨replaceFuel s.data.length s.data pat.data rep.data⟩

/-- quality.py date_format_to_regex: sequentially replace the format tokens,
longest keys first (YYYY, then YY, MM, DD, then M, D), then anchor. -/
def dateFormatToRegex (format_str : String) : String :=
  let r1 := pyReplace format_str "YYYY" "\\d{4}"
  let r2 := pyReplace r1 "YY" "\\d{2}"
  let r3 := pyReplace r2 "MM" "(0[1-9]|1[0-2])"
  let r4 := pyReplace r3 "DD" "(0[1-9]|[12][0-9]|3[01])"
  let r5 := pyReplace r4 "M" "([1-9]|1[0-2])"
  let r6 := pyReplace r5 "D" "([1-9]|[12][0-9]|3[01])"
  "^" ++ r6 ++ "$"

/-- Comparison by a key projection, used to model SQL ORDER BY. -/
def keyLe {α β : Type} [LinearOrder β] (f : α → β) (a b : α) : Prop := f a ≤ f b

instance {α β : Type} [LinearOrder β] (f : α → β) : DecidableRel (keyLe f) :=
  fun a b => inferInstanceAs (Decidable (f a ≤ f b))

instance {α β : Type} [LinearOrder β] (f : α → β) : IsTotal α (keyLe f) :=
  ⟨fun a b => le_total (f a) (f b)⟩

instance {α β : Type} [LinearOrder β] (f : α → β) : IsTrans α (keyLe f) :=
  ⟨fun _ _ _ h h2 => le_trans h h2⟩

/-- Stable sort by a key projection (ORDER BY). -/
def sortByKey {α β : Type} [LinearOrder β] (f : α → β) (l : List α) : List α :=
  List.insertionSort (keyLe f) l

/-- A row of information_schema.columns as read by the Postgres and MySQL
connectors: identifying schema/table, the six selected fields, and the
ordinal position used for ORDER BY. -/
structure InfoSchemaColumn where
  tableSchema : String
  tableName : String
  columnName : String
  dataType : String
  isNullable : String
  charMaxLength : Option Int
  numPrecision : Option Int
  numScale : Option Int
  ordinalPosition : Nat
deriving DecidableEq

/-- A row of the sys.columns/sys.types/sys.tables join read by the MSSQL
connector: is_nullable is a bit, max_length/precision/scale are not null. -/
structure SysColumnRow where
  tableSchema : String
  tableName : String
  columnName : String
  typeName : String
  isNullable : Bool
  maxLength : Int
  precision : Int
  scale : Int
  columnId : Nat
deriving DecidableEq

/-- A row of all_tab_columns as read by the Oracle connector. -/
structure OraTabColumn where
  owner : String
  tableName : String
  columnName : String
  dataType : String
  nullable : String
  dataLength : Int
  dataPrecision : Option Int
  dataScale : Option Int
  columnId : Nat
deriving DecidableEq

/-- The uniform six-field column tuple: name, raw type, nullable,
max length, precision, scale. -/
abbrev ColumnTuple : Type :=
  String × String × String × Option Int × Option Int × Option Int

/-- PostgresConnector.get_columns: select the six fields from
information_schema.columns for the given schema and table, ordered by
ordinal_position. -/
def PostgresConnector_get_columns (cat : List InfoSchemaColumn)
    (schema table : String) : List ColumnTuple :=
  (sortByKey (fun r => r.ordinalPosition)
      (cat.filter (fun r => r.tableSchema == schema && r.tableName == table))).map
    (fun r => (r.columnName, r.dataType, r.isNullable,
      r.charMaxLength, r.numPrecision, r.numScale))

/-- MySQLConnector.get_columns: identical information_schema query to the
Postgres connector. -/
def MySQLConnector_get_columns (cat : List InfoSchemaColumn)
    (schema table : String) : List ColumnTuple :=
  (sortByKey (fun r => r.ordinalPosition)
      (cat.filter (fun r => r.tableSchema == schema && r.tableName == table))).map
    (fun r => (r.columnName, r.dataType, r.isNullable,
      r.charMaxLength, r.numPrecision, r.numScale))

/-- MSSQLConnector.get_columns: select from the sys.columns join for the
given schema and table, converting the nullable bit to YES/NO, ordered by
column_id. -/
def MSSQLConnector_get_columns (cat : List SysColumnRow)
    (schema table : String) : List ColumnTuple :=
  (sortByKey (fun r => r.columnId)
      (cat.filter (fun r => r.tableSchema == schema && r.tableName == table))).map
    (fun r => (r.columnName, r.typeName, if r.isNullable then "YES" else "NO",
      some r.maxLength, some r.precision, some r.scale))

/-- OracleConnector.get_columns: select from all_tab_columns for the given
owner and table, ordered by column_id. -/
def OracleConnector_get_columns (cat : List OraTabColumn)
    (schema table : String) : List ColumnTuple :=
  (sortByKey (fun r => r.columnId)
      (cat.filter (fun r => r.owner == schema && r.tableName == table))).map
    (fun r => (r.columnName, r.dataType, r.nullable,
      some r.dataLength, r.dataPrecision, r.dataScale))

/-- A row of information_schema.tables: schema, name and native table_type
(for Postgres/MySQL: BASE TABLE, VIEW, and on MySQL also SYSTEM VIEW etc.). -/
structure InfoSchemaTable where
  tableSchema : String
  tableName : String
  tableType : String
deriving DecidableEq

/-- A row of sys.objects as read by the MSSQL connector: U for user table,
V for view, plus other object kinds that the query filters away. -/
structure SysObjectRow where
  schemaName : String
  name : String
  typ : String
deriving DecidableEq

/-- PostgresConnector.get_all_tables_and_views: table_name and raw
table_type for rows of the schema whose type is BASE TABLE or VIEW,
ordered by table_name.  The native label is returned unchanged. -/
def PostgresConnector_get_all_tables_and_views (cat : List InfoSchemaTable)
    (schema : String) : List (String × String) :=
  (sortByKey (fun r => r.tableName)
      (cat.filter (fun r => r.tableSchema == schema &&
        (r.tableType == "BASE TABLE" || r.tableType == "VIEW")))).map
    (fun r => (r.tableName, r.tableType))

/-- MySQLConnector.get_all_tables_and_views: every row of the schema, with
the CASE expression mapping VIEW to VIEW and anything else to TABLE. -/
def MySQLConnector_get_all_tables_and_views (cat : List InfoSchemaTable)
    (schema : String) : List (String × String) :=
  (sortByKey (fun r => r.tableName)
      (cat.filter (fun r => r.tableSchema == schema))).map
    (fun r => (r.tableName, if r.tableType == "VIEW" then "VIEW" else "TABLE"))

/-- MSSQLConnector.get_all_tables_and_views: sys.objects rows of type U or
V in the schema, kind normalized by the CASE expression to VIEW for V and
TABLE otherwise, ordered by name. -/
def MSSQLConnector_get_all_tables_and_views (cat : List SysObjectRow)
    (schema : String) : List (String × String) :=
  (sortByKey (fun r => r.name)
      (cat.filter (fun r => (r.typ == "U" || r.typ == "V") && r.schemaName == schema))).map
    (fun r => (r.name, if r.typ == "V" then "VIEW" else "TABLE"))

/-- OracleConnector.get_all_tables_and_views: the union of all_tables rows
labelled TABLE and all_views rows labelled VIEW for the upper-cased owner,
ordered by name.  The catalogs are the owner-to-name listings. -/
def OracleConnector_get_all_tables_and_views (allTables allViews : List (String × String))
    (schema : String) : List (String × String) :=
  sortByKey (fun r => r.1)
    (((allTables.filter (fun r => r.1 == pyUpper schema)).map (fun r => (r.2, "TABLE"))) ++
     ((allViews.filter (fun r => r.1 == pyUpper schema)).map (fun r => (r.2, "VIEW"))))

/-- The four connector kinds the factory can produce. -/
inductive DbConnectorKind where
  | mssql
  | mysql
  | postgres
  | oracle
deriving DecidableEq

/-- DatabaseFactory.create_connector: the if/elif chain on db_type.lower().
Constructing a connector performs no connection attempt (the constructors
only null out the handle), so the result is the bare connector kind; the
unknown-kind branch raises ValueError with the unsupported-type message. -/
def DatabaseFactory_create_connector (db_type : String) : Except String DbConnectorKind :=
  if pyLower db_type == "mssql" then .ok .mssql
  else if pyLower db_type == "mysql" then .ok .mysql
  else if pyLower db_type == "postgres" || pyLower db_type == "postgresql" then .ok .postgres
  else if pyLower db_type == "oracle" then .ok .oracle
  else .error ("Unsupported database type: " ++ db_type)

/-- A single-column table: each row is the value of the profiled column,
NULL modelled as none. -/
abbrev TextTable : Type := List (Option String)

/-- PostgresConnector.get_null_count: COUNT(*) WHERE col IS NULL. -/
def pg_get_null_count (tbl : TextTable) : Nat :=
  tbl.countP (fun v => v.isNone)

/-- PostgresConnector.get_null_violations: rows with NULL in the column,
LIMIT limit (default 100 at the call sites). -/
def pg_get_null_violations (tbl : TextTable) (limit : Nat) : TextTable :=
  (tbl.filter (fun v => v.isNone)).take limit

/-- PostgresConnector.get_distinct_count: COUNT(DISTINCT col), which counts
distinct non-null values. -/
def pg_get_distinct_count (tbl : TextTable) : Nat :=
  ((tbl.filterMap id).dedup).length

/-- PostgresConnector.get_non_distinct_violations: rows whose non-null value
occurs more than once in the column, LIMIT limit. -/
def pg_get_non_distinct_violations (tbl : TextTable) (limit : Nat) : TextTable :=
  (tbl.filter (fun v =>
    match v with
    | some x => decide (1 < tbl.countP (fun w => w == some x))
    | none => false)).take limit

/-- The unique-count subquery of PostgresConnector.get_column_details:
GROUP BY the column value (the NULL group included) and count the groups
with exactly one row. -/
def pg_unique_count (tbl : TextTable) : Nat :=
  (tbl.dedup.filter (fun v => tbl.count v == 1)).length

/-- The row count of PostgresConnector.get_table_analysis: COUNT(*). -/
def pg_row_count (tbl : TextTable) : Nat := tbl.length

/-- PostgresConnector.get_tckn_violation_count: count non-null values
failing the TCKN validity predicate. -/
def pg_get_tckn_violation_count (tbl : TextTable) : Nat :=
  tbl.countP (fun v =>
    match v with
    | some x => !tcknValidPg x
    | none => false)

/-- PostgresConnector.get_tckn_violations: non-null rows failing the TCKN
validity predicate, LIMIT limit. -/
def pg_get_tckn_violations (tbl : TextTable) (limit : Nat) : TextTable :=
  (tbl.filter (fun v =>
    match v with
    | some x => !tcknValidPg x
    | none => false)).take limit

/-- PostgresConnector.get_date_format_violation_count: count rows whose
value does not match the regex (a NULL value makes the SQL predicate NULL,
so NULL rows are not counted).  The regex itself is user-derived, so its
match semantics is a parameter.  The limit parameter is accepted but, as in
the source, not used. -/
def pg_get_date_format_violation_count (tbl : TextTable)
    (rx : String → Bool) (_limit : Nat) : Nat :=
  tbl.countP (fun v =>
    match v with
    | some x => !rx x
    | none => false)

/-- PostgresConnector.get_date_format_violations: rows whose non-null value
does not match the regex.  The query has no LIMIT clause, so the limit
parameter is accepted but never applied and every violating row is
returned. -/
def pg_get_date_format_violations (tbl : TextTable)
    (rx : String → Bool) (_limit : Nat) : TextTable :=
  tbl.filter (fun v =>
    match v with
    | some x => !rx x
    | none => false)

/-- One row of the get_text_column_date_formats result: the projected
original row together with the computed format label and validity flag. -/
structure DateRow where
  value : String
  format : String
  isValid : Bool
deriving DecidableEq

/-- PostgresConnector.get_text_column_date_formats: the first limit
non-null rows (the call site uses the default limit of 1000), each labelled
with its classified format and validity. -/
def pg_get_text_column_date_formats (tbl : TextTable) (limit : Nat) : List DateRow :=
  ((tbl.filterMap id).take limit).map (fun x =>
    { value := x, format := classifyDateFormat x, isValid := matchesAnyDatePattern x })

/-- PostgresConnector.get_letter_count: count rows whose text cast matches
the letter class (NULL rows never match). -/
def pg_get_letter_count (tbl : TextTable) : Nat :=
  tbl.countP (fun v =>
    match v with
    | some x => x.data.any (fun c => chBetween 'A' 'Z' c || chBetween 'a' 'z' c)
    | none => false)

/-- PostgresConnector.get_letter_violations: the matching rows, first limit
rows only. -/
def pg_get_letter_violations (tbl : TextTable) (limit : Nat) : TextTable :=
  (tbl.filter (fun v =>
    match v with
    | some x => x.data.any (fun c => chBetween 'A' 'Z' c || chBetween 'a' 'z' c)
    | none => false)).take limit

/-- PostgresConnector.get_number_count: count rows whose text cast contains
a digit. -/
def pg_get_number_count (tbl : TextTable) : Nat :=
  tbl.countP (fun v =>
    match v with
    | some x => x.data.any Char.isDigit
    | none => false)

/-- PostgresConnector.get_number_violations: the matching rows, LIMIT limit. -/
def pg_get_number_violations (tbl : TextTable) (limit : Nat) : TextTable :=
  (tbl.filter (fun v =>
    match v with
    | some x => x.data.any Char.isDigit
    | none => false)).take limit

/-- MSSQLConnector.get_null_violations: SELECT TOP limit of the rows with
NULL in the column. -/
def mssql_get_null_violations (tbl : TextTable) (limit : Nat) : TextTable :=
  (tbl.filter (fun v => v.isNone)).take limit

/-- MySQLConnector.get_null_violations: the rows with NULL in the column,
LIMIT limit. -/
def mysql_get_null_violations (tbl : TextTable) (limit : Nat) : TextTable :=
  (tbl.filter (fun v => v.isNone)).take limit

/-- OracleConnector.get_null_violations: the rows with NULL in the column,
capped by ROWNUM <= limit (ROWNUM numbers the rows that pass the rest of
the predicate, so the cap takes the first limit filtered rows). -/
def oracle_get_null_violations (tbl : TextTable) (limit : Nat) : TextTable :=
  (tbl.filter (fun v => v.isNone)).take limit

/-- OracleConnector.get_invalid_datetime_violations: the non-null rows
whose rendered value fails the datetime regex (the TO_CHAR plus
REGEXP_LIKE test is abstracted as the predicate invalidp).  The query has
no ROWNUM or FETCH clause, so the limit parameter is accepted but never
applied and every violating row is returned. -/
def oracle_get_invalid_datetime_violations (tbl : TextTable)
    (invalidp : String → Bool) (_limit : Nat) : TextTable :=
  tbl.filter (fun v =>
    match v with
    | some x => invalidp x
    | none => false)

/-- The min/max/range dictionary returned by get_min_max_range. -/
structure RangeStats where
  min? : Option ℚ
  max? : Option ℚ
  range? : Option ℚ
deriving DecidableEq

/-- The min_length/max_length dictionary returned by get_char_length_range. -/
structure LengthStats where
  minLength? : Option Int
  maxLength? : Option Int
deriving DecidableEq

/-- The per-column parameters run_quality_tests reads through
get_column_params; a missing parameter is none. -/
structure ColParams where
  range_check_min : Option ℚ
  range_check_max : Option ℚ
  length_check_min : Option Int
  length_check_max : Option Int
  allowed_values_str : Option String
  case_consistency : Option String
  start_date : Option String
  end_date : Option String
  allowed_pattern : Option String
  regex_pattern : Option String
  strict : Option Bool
  start_date_logic : Option String
  end_date_logic : Option String
  date_format_input : Option String
deriving DecidableEq

/-- All parameters absent. -/
def emptyParams : ColParams :=
  ⟨none, none, none, none, none, none, none, none, none, none, none, none, none, none⟩

/-- The connector surface run_quality_tests calls, one fallible function
per backend query, over an abstract row type ρ for the sampled rows.  The
structural calls get_columns and get_table_analysis are taken outside the
per-check try blocks in the source (their failure aborts the run), so they
are modelled as plain data here. -/
structure QConnector (ρ : Type) where
  columns : List (String × String)
  tableAnalysisRowCount : Nat
  get_null_count : String → Except String Nat
  get_null_violations : String → Except String (List ρ)
  get_distinct_count : String → Except String Nat
  get_non_distinct_violations : String → Except String (List ρ)
  get_min_max_range : String → Except String RangeStats
  get_min_max_violations : String → ℚ → ℚ → Except String (List ρ)
  get_char_length_range : String → Except String LengthStats
  get_char_length_violations : String → Int → Int → Except String (List ρ)
  get_letter_count : String → Except String Nat
  get_letter_violations : String → Except String (List ρ)
  get_number_count : String → Except String Nat
  get_number_violations : String → Except String (List ρ)
  get_allowed_values_violation_count : String → List String → Except String (Nat × Nat)
  get_allowed_values_violations : String → List String → Except String (List ρ)
  get_eng_numeric_format_violation_count : String → Except String Nat
  get_eng_numeric_format_violations : String → Except String (List ρ)
  get_tr_numeric_format_violation_count : String → Except String Nat
  get_tr_numeric_format_violations : String → Except String (List ρ)
  get_case_inconsistency_count : String → Option String → Except String Nat
  get_case_inconsistency_violations : String → Option String → Except String (List ρ)
  get_future_date_violation_count : String → Except String Nat
  get_future_date_violations : String → Except String (List ρ)
  get_date_range_violation_count : String → Option String → Option String → Except String Nat
  get_date_range_violations : String → Option String → Option String → Except String (List ρ)
  get_special_char_violation_count : String → Option String → Except String Nat
  get_special_char_violations : String → Option String → Except String (List ρ)
  get_email_format_violation_count : String → Except String Nat
  get_email_format_violations : String → Except String (List ρ)
  get_regex_pattern_violation_count : String → Option String → Except String Nat
  get_regex_pattern_violations : String → Option String → Except String (List ρ)
  get_positive_value_violation_count : String → Option Bool → Except String Nat
  get_positive_value_violations : String → Option Bool → Except String (List ρ)
  get_tckn_violation_count : String → Except String Nat
  get_tckn_violations : String → Nat → Except String (List ρ)
  get_text_column_date_formats : String → Except String (List DateRow)
  get_date_logic_violation_count : Option String → Option String → Except String Nat
  get_date_logic_violations : Option String → Option String → Except String (List ρ)
  get_date_format_violation_count : String → String → Nat → Except String Nat
  get_date_format_violations : String → String → Except String (List ρ)

/-- Output of an ordinary count-based check branch: the recorded count, the
recorded pass value, and the fetched violation sample if any. -/
structure SimpleOut (ρ : Type) where
  count : Option Nat
  pass : Option String
  sample : Option (List ρ)
deriving DecidableEq

/-- Branch output where all three fields are unset. -/
def SimpleOut.empty {ρ : Type} : SimpleOut ρ := ⟨none, none, none⟩

/-- Output of the range_check branch. -/
structure RangeOut (ρ : Type) where
  stats : Option RangeStats
  pass : Option String
  sample : Option (List ρ)
deriving DecidableEq

/-- Output of the length_check branch. -/
structure LengthOut (ρ : Type) where
  stats : Option LengthStats
  pass : Option String
  sample : Option (List ρ)
deriving DecidableEq

/-- Output of the allowed_values branch. -/
structure AllowedOut (ρ : Type) where
  violation : Option Nat
  nonViolation : Option Nat
  pass : Option String
  sample : Option (List ρ)
deriving DecidableEq

/-- Output of the date_check branch. -/
structure DateCheckOut where
  count : Option Nat
  pass : Option String
  sample : Option (List DateRow)
deriving DecidableEq

/-- Python comparison of a number against a possibly-NULL dictionary entry,
left operand the number: comparing against None raises TypeError. -/
def pyLeL {α : Type} [LE α] [DecidableRel (α := α) (· ≤ ·)] (a : α) (b : Option α) :
    Except String Bool :=
  match b with
  | none => .error "TypeError"
  | some x => .ok (decide (a ≤ x))

/-- Python comparison with the possibly-NULL dictionary entry on the left. -/
def pyLeR {α : Type} [LE α] [DecidableRel (α := α) (· ≤ ·)] (a : Option α) (b : α) :
    Except String Bool :=
  match a with
  | none => .error "TypeError"
  | some x => .ok (decide (x ≤ b))

/-- The numeric type gate of the range_check branch in run_quality_tests. -/
def rangeCheckTypes : List String :=
  ["int", "bigint", "smallint", "tinyint", "decimal", "numeric", "float",
   "double", "real", "number"]

/-- The null_check branch: count nulls; zero passes, otherwise fetch the
violation sample and fail; the bare except leaves count and pass as None. -/
def nullBranch {ρ : Type} (c : QConnector ρ) (tests : List String) (col : String) :
    SimpleOut ρ :=
  if tests.contains "null_check" then
    match c.get_null_count col with
    | .error _ => SimpleOut.empty
    | .ok k =>
      if k == 0 then ⟨some k, some PASS_ICON, none⟩
      else
        match c.get_null_violations col with
        | .error _ => SimpleOut.empty
        | .ok rows => ⟨some k, some FAIL_ICON, some rows⟩
  else SimpleOut.empty

/-- The distinct_check branch: pass when the distinct count equals the
total row count, otherwise fetch the non-distinct sample and fail; the bare
except leaves count and pass as None. -/
def distinctBranch {ρ : Type} (c : QConnector ρ) (tests : List String)
    (totalRows : Nat) (col : String) : SimpleOut ρ :=
  if tests.contains "distinct_check" then
    match c.get_distinct_count col with
    | .error _ => SimpleOut.empty
    | .ok k =>
      if k == totalRows then ⟨some k, some PASS_ICON, none⟩
      else
        match c.get_non_distinct_violations col with
        | .error _ => SimpleOut.empty
        | .ok rows => ⟨some k, some FAIL_ICON, some rows⟩
  else SimpleOut.empty

/-- The range_check branch: gated on the numeric type list; with both user
bounds present, pass when user_min <= stats min and stats max <= user_max
(Python short-circuit: a None stats entry raises TypeError, and the second
comparison is skipped when the first is already false); a failure fetches
the min-max violation sample; any exception resets stats and pass to None;
missing user bounds leave the stats with pass None. -/
def rangeBranch {ρ : Type} (c : QConnector ρ) (tests : List String)
    (p : ColParams) (dataType col : String) : RangeOut ρ :=
  if tests.contains "range_check" && rangeCheckTypes.contains dataType then
    match c.get_min_max_range col with
    | .error _ => ⟨none, none, none⟩
    | .ok stats =>
      match p.range_check_min, p.range_check_max with
      | some umin, some umax =>
        match pyLeL umin stats.min? with
        | .error _ => ⟨none, none, none⟩
        | .ok false =>
          match c.get_min_max_violations col umin umax with
          | .error _ => ⟨none, none, none⟩
          | .ok rows => ⟨some stats, some FAIL_ICON, some rows⟩
        | .ok true =>
          match pyLeR stats.max? umax with
          | .error _ => ⟨none, none, none⟩
          | .ok true => ⟨some stats, some PASS_ICON, none⟩
          | .ok false =>
            match c.get_min_max_violations col umin umax with
            | .error _ => ⟨none, none, none⟩
            | .ok rows => ⟨some stats, some FAIL_ICON, some rows⟩
      | _, _ => ⟨some stats, none, none⟩
  else ⟨none, none, none⟩

/-- The length_check branch, the same shape as range_check but without a
type gate, over the min_length/max_length statistics. -/
def lengthBranch {ρ : Type} (c : QConnector ρ) (tests : List String)
    (p : ColParams) (col : String) : LengthOut ρ :=
  if tests.contains "length_check" then
    match c.get_char_length_range col with
    | .error _ => ⟨none, none, none⟩
    | .ok stats =>
      match p.length_check_min, p.length_check_max with
      | some umin, some umax =>
        match pyLeL umin stats.minLength? with
        | .error _ => ⟨none, none, none⟩
        | .ok false =>
          match c.get_char_length_violations col umin umax with
          | .error _ => ⟨none, none, none⟩
          | .ok rows => ⟨some stats, some FAIL_ICON, some rows⟩
        | .ok true =>
          match pyLeR stats.maxLength? umax with
          | .error _ => ⟨none, none, none⟩
          | .ok true => ⟨some stats, some PASS_ICON, none⟩
          | .ok false =>
            match c.get_char_length_violations col umin umax with
            | .error _ => ⟨none, none, none⟩
            | .ok rows => ⟨some stats, some FAIL_ICON, some rows⟩
      | _, _ => ⟨some stats, none, none⟩
  else ⟨none, none, none⟩

/-- The letter_check branch: the handler attaches the error text to the
pass field, and the source's else branch records the literal string else. -/
def letterBranch {ρ : Type} (c : QConnector ρ) (tests : List String) (col : String) :
    SimpleOut ρ :=
  if tests.contains "letter_check" then
    match c.get_letter_count col with
    | .error e => ⟨none, some (failText e), none⟩
    | .ok k =>
      if k == 0 then ⟨some k, some PASS_ICON, none⟩
      else
        match c.get_letter_violations col with
        | .error e => ⟨none, some (failText e), none⟩
        | .ok rows => ⟨some k, some FAIL_ICON, some rows⟩
  else ⟨none, some "else", none⟩

/-- The number_check branch: the bare except resets count and pass to None. -/
def numberBranch {ρ : Type} (c : QConnector ρ) (tests : List String) (col : String) :
    SimpleOut ρ :=
  if tests.contains "number_check" then
    match c.get_number_count col with
    | .error _ => SimpleOut.empty
    | .ok k =>
      if k == 0 then ⟨some k, some PASS_ICON, none⟩
      else
        match c.get_number_violations col with
        | .error _ => SimpleOut.empty
        | .ok rows => ⟨some k, some FAIL_ICON, some rows⟩
  else SimpleOut.empty

/-- The allowed_values branch: with a non-empty CSV parameter, split on
commas and strip each entry, then compare counts; the handler attaches the
error text. -/
def allowedBranch {ρ : Type} (c : QConnector ρ) (tests : List String)
    (p : ColParams) (col : String) : AllowedOut ρ :=
  if tests.contains "allowed_values" then
    match p.allowed_values_str with
    | some sVal =>
      if sVal != "" then
        match c.get_allowed_values_violation_count col
            ((sVal.splitOn ",").map pyStrip) with
        | .error e => ⟨none, none, some (failText e), none⟩
        | .ok (v, nv) =>
          if v == 0 then ⟨some v, some nv, some PASS_ICON, none⟩
          else
            match c.get_allowed_values_violations col ((sVal.splitOn ",").map pyStrip) with
            | .error e => ⟨none, none, some (failText e), none⟩
            | .ok rows => ⟨some v, some nv, some FAIL_ICON, some rows⟩
      else ⟨none, none, none, none⟩
    | none => ⟨none, none, none, none⟩
  else ⟨none, none, none, none⟩

/-- The eng_numeric_format branch: the handler attaches the error text. -/
def engBranch {ρ : Type} (c : QConnector ρ) (tests : List String) (col : String) :
    SimpleOut ρ :=
  if tests.contains "eng_numeric_format" then
    match c.get_eng_numeric_format_violation_count col with
    | .error e => ⟨none, some (failText e), none⟩
    | .ok k =>
      if k == 0 then ⟨some k, some PASS_ICON, none⟩
      else
        match c.get_eng_numeric_format_violations col with
        | .error e => ⟨none, some (failText e), none⟩
        | .ok rows => ⟨some k, some FAIL_ICON, some rows⟩
  else SimpleOut.empty

/-- The tr_numeric_format branch: the handler attaches the error text. -/
def trBranch {ρ : Type} (c : QConnector ρ) (tests : List String) (col : String) :
    SimpleOut ρ :=
  if tests.contains "tr_numeric_format" then
    match c.get_tr_numeric_format_violation_count col with
    | .error e => ⟨none, some (failText e), none⟩
    | .ok k =>
      if k == 0 then ⟨some k, some PASS_ICON, none⟩
      else
        match c.get_tr_numeric_format_violations col with
        | .error e => ⟨none, some (failText e), none⟩
        | .ok rows => ⟨some k, some FAIL_ICON, some rows⟩
  else SimpleOut.empty

/-- The case_consistency branch: the expected case parameter is forwarded
to the connector; the handler attaches the error text. -/
def caseBranch {ρ : Type} (c : QConnector ρ) (tests : List String)
    (p : ColParams) (col : String) : SimpleOut ρ :=
  if tests.contains "case_consistency" then
    match c.get_case_inconsistency_count col p.case_consistency with
    | .error e => ⟨none, some (failText e), none⟩
    | .ok k =>
      if k == 0 then ⟨some k, some PASS_ICON, none⟩
      else
        match c.get_case_inconsistency_violations col p.case_consistency with
        | .error e => ⟨none, some (failText e), none⟩
        | .ok rows => ⟨some k, some FAIL_ICON, some rows⟩
  else SimpleOut.empty

/-- The future_date branch: the handler attaches the error text. -/
def futureBranch {ρ : Type} (c : QConnector ρ) (tests : List String) (col : String) :
    SimpleOut ρ :=
  if tests.contains "future_date" then
    match c.get_future_date_violation_count col with
    | .error e => ⟨none, some (failText e), none⟩
    | .ok k =>
      if k == 0 then ⟨some k, some PASS_ICON, none⟩
      else
        match c.get_future_date_violations col with
        | .error e => ⟨none, some (failText e), none⟩
        | .ok rows => ⟨some k, some FAIL_ICON, some rows⟩
  else SimpleOut.empty

/-- The date_range branch over the start/end date parameters. -/
def dateRangeBranch {ρ : Type} (c : QConnector ρ) (tests : List String)
    (p : ColParams) (col : String) : SimpleOut ρ :=
  if tests.contains "date_range" then
    match c.get_date_range_violation_count col p.start_date p.end_date with
    | .error e => ⟨none, some (failText e), none⟩
    | .ok k =>
      if k == 0 then ⟨some k, some PASS_ICON, none⟩
      else
        match c.get_date_range_violations col p.start_date p.end_date with
        | .error e => ⟨none, some (failText e), none⟩
        | .ok rows => ⟨some k, some FAIL_ICON, some rows⟩
  else SimpleOut.empty

/-- The no_special_chars branch over the allowed-pattern parameter. -/
def specialBranch {ρ : Type} (c : QConnector ρ) (tests : List String)
    (p : ColParams) (col : String) : SimpleOut ρ :=
  if tests.contains "no_special_chars" then
    match c.get_special_char_violation_count col p.allowed_pattern with
    | .error e => ⟨none, some (failText e), none⟩
    | .ok k =>
      if k == 0 then ⟨some k, some PASS_ICON, none⟩
      else
        match c.get_special_char_violations col p.allowed_pattern with
        | .error e => ⟨none, some (failText e), none⟩
        | .ok rows => ⟨some k, some FAIL_ICON, some rows⟩
  else SimpleOut.empty

/-- The email_format branch: the handler attaches the error text. -/
def emailBranch {ρ : Type} (c : QConnector ρ) (tests : List String) (col : String) :
    SimpleOut ρ :=
  if tests.contains "email_format" then
    match c.get_email_format_violation_count col with
    | .error e => ⟨none, some (failText e), none⟩
    | .ok k =>
      if k == 0 then ⟨some k, some PASS_ICON, none⟩
      else
        match c.get_email_format_violations col with
        | .error e => ⟨none, some (failText e), none⟩
        | .ok rows => ⟨some k, some FAIL_ICON, some rows⟩
  else SimpleOut.empty

/-- The regex_pattern branch: its handler resets only the count, leaving
the pass field at its initial None. -/
def regexBranch {ρ : Type} (c : QConnector ρ) (tests : List String)
    (p : ColParams) (col : String) : SimpleOut ρ :=
  if tests.contains "regex_pattern" then
    match c.get_regex_pattern_violation_count col p.regex_pattern with
    | .error _ => SimpleOut.empty
    | .ok k =>
      if k == 0 then ⟨some k, some PASS_ICON, none⟩
      else
        match c.get_regex_pattern_violations col p.regex_pattern with
        | .error _ => SimpleOut.empty
        | .ok rows => ⟨some k, some FAIL_ICON, some rows⟩
  else SimpleOut.empty

/-- The positive_value branch over the strict parameter. -/
def positiveBranch {ρ : Type} (c : QConnector ρ) (tests : List String)
    (p : ColParams) (col : String) : SimpleOut ρ :=
  if tests.contains "positive_value" then
    match c.get_positive_value_violation_count col p.strict with
    | .error e => ⟨none, some (failText e), none⟩
    | .ok k =>
      if k == 0 then ⟨some k, some PASS_ICON, none⟩
      else
        match c.get_positive_value_violations col p.strict with
        | .error e => ⟨none, some (failText e), none⟩
        | .ok rows => ⟨some k, some FAIL_ICON, some rows⟩
  else SimpleOut.empty

/-- The tckn_check branch: the violation sample is fetched with an explicit
limit of 100; the handler attaches the error text. -/
def tcknBranch {ρ : Type} (c : QConnector ρ) (tests : List String) (col : String) :
    SimpleOut ρ :=
  if tests.contains "tckn_check" then
    match c.get_tckn_violation_count col with
    | .error e => ⟨none, some (failText e), none⟩
    | .ok k =>
      if k == 0 then ⟨some k, some PASS_ICON, none⟩
      else
        match c.get_tckn_violations col 100 with
        | .error e => ⟨none, some (failText e), none⟩
        | .ok rows => ⟨some k, some FAIL_ICON, some rows⟩
  else SimpleOut.empty

/-- The date_check branch: fetch the parsed-format rows (at the default
limit) and count the invalid ones; a failure stores the invalid rows. -/
def dateCheckBranch {ρ : Type} (c : QConnector ρ) (tests : List String) (col : String) :
    DateCheckOut :=
  if tests.contains "date_check" then
    match c.get_text_column_date_formats col with
    | .error e => ⟨none, some (failText e), none⟩
    | .ok rows =>
      if rows.countP (fun r => !r.isValid) == 0 then
        ⟨some (rows.countP (fun r => !r.isValid)), some PASS_ICON, none⟩
      else
        ⟨some (rows.countP (fun r => !r.isValid)), some FAIL_ICON,
          some (rows.filter (fun r => !r.isValid))⟩
  else ⟨none, none, none⟩

/-- The date_logic_check branch over the two correlated column-name
parameters; the handler attaches the error text. -/
def dateLogicBranch {ρ : Type} (c : QConnector ρ) (tests : List String)
    (p : ColParams) : SimpleOut ρ :=
  if tests.contains "date_logic_check" then
    match c.get_date_logic_violation_count p.start_date_logic p.end_date_logic with
    | .error e => ⟨none, some (failText e), none⟩
    | .ok k =>
      if k == 0 then ⟨some k, some PASS_ICON, none⟩
      else
        match c.get_date_logic_violations p.start_date_logic p.end_date_logic with
        | .error e => ⟨none, some (failText e), none⟩
        | .ok rows => ⟨some k, some FAIL_ICON, some rows⟩
  else SimpleOut.empty

/-- The date_format_check branch: a missing format input makes
date_format_to_regex raise AttributeError, caught by the handler; otherwise
the converted regex is passed to the count (with limit 100) and, on
failure, the sampler. -/
def dateFormatBranch {ρ : Type} (c : QConnector ρ) (tests : List String)
    (p : ColParams) (col : String) : SimpleOut ρ :=
  if tests.contains "date_format_check" then
    match p.date_format_input with
    | none => ⟨none, some (failText "AttributeError"), none⟩
    | some fmt =>
      match c.get_date_format_violation_count col (dateFormatToRegex fmt) 100 with
      | .error e => ⟨none, some (failText e), none⟩
      | .ok k =>
        if k == 0 then ⟨some k, some PASS_ICON, none⟩
        else
          match c.get_date_format_violations col (dateFormatToRegex fmt) with
          | .error e => ⟨none, some (failText e), none⟩
          | .ok rows => ⟨some k, some FAIL_ICON, some rows⟩
  else SimpleOut.empty

/-- The violation-percentage expression of the metrics dictionary:
count / total_rows * 100 when total_rows is nonzero and the count was
obtained, None otherwise (Python truthiness of total_rows). -/
def violationPct (totalRows : Nat) (count : Option Nat) : Option ℚ :=
  if totalRows != 0 then count.map (fun k => (k : ℚ) / (totalRows : ℚ) * 100)
  else none

/-- One row of the metrics table run_quality_tests appends per selected
column: the per-check branch outputs plus the percentage columns.  The
datetime_check fields exist in the dictionary but no branch ever sets
them. -/
structure MetricsRow (ρ : Type) where
  column : String
  dataType : String
  nullOut : SimpleOut ρ
  distinctOut : SimpleOut ρ
  rangeOut : RangeOut ρ
  lengthOut : LengthOut ρ
  invalidDatetimeCount : Option Nat
  datetimePass : Option String
  letterOut : SimpleOut ρ
  numberOut : SimpleOut ρ
  allowedOut : AllowedOut ρ
  engOut : SimpleOut ρ
  trOut : SimpleOut ρ
  caseOut : SimpleOut ρ
  futureOut : SimpleOut ρ
  dateRangeOut : SimpleOut ρ
  specialOut : SimpleOut ρ
  emailOut : SimpleOut ρ
  regexOut : SimpleOut ρ
  positiveOut : SimpleOut ρ
  tcknOut : SimpleOut ρ
  dateCheckOut : DateCheckOut
  dateLogicOut : SimpleOut ρ
  dateFormatOut : SimpleOut ρ
  nullPct : Option ℚ
  distinctPct : Option ℚ
  letterPct : Option ℚ
  numberPct : Option ℚ
  engPct : Option ℚ
  trPct : Option ℚ
  casePct : Option ℚ
  futurePct : Option ℚ
  dateRangePct : Option ℚ
  specialPct : Option ℚ
  emailPct : Option ℚ
  regexPct : Option ℚ
  positivePct : Option ℚ
  tcknPct : Option ℚ
  dateCheckPct : Option ℚ
  dateLogicPct : Option ℚ
  dateFormatPct : Option ℚ
deriving DecidableEq

/-- The body of the per-column loop of run_quality_tests: run every check
branch (each modelling one try/except block of the source) and assemble the
metrics dictionary for the column. -/
def computeRow {ρ : Type} (c : QConnector ρ) (totalRows : Nat)
    (tests : List String) (p : ColParams) (col dataType : String) : MetricsRow ρ :=
  let n := nullBranch c tests col
  let d := distinctBranch c tests totalRows col
  let rg := rangeBranch c tests p dataType col
  let ln := lengthBranch c tests p col
  let lt := letterBranch c tests col
  let nm := numberBranch c tests col
  let av := allowedBranch c tests p col
  let en := engBranch c tests col
  let tr := trBranch c tests col
  let cs := caseBranch c tests p col
  let fu := futureBranch c tests col
  let dr := dateRangeBranch c tests p col
  let sp := specialBranch c tests p col
  let em := emailBranch c tests col
  let rx := regexBranch c tests p col
  let pv := positiveBranch c tests p col
  let tk := tcknBranch c tests col
  let dc := dateCheckBranch c tests col
  let dl := dateLogicBranch c tests p
  let df := dateFormatBranch c tests p col
  { column := col
    dataType := dataType
    nullOut := n
    distinctOut := d
    rangeOut := rg
    lengthOut := ln
    invalidDatetimeCount := none
    datetimePass := none
    letterOut := lt
    numberOut := nm
    allowedOut := av
    engOut := en
    trOut := tr
    caseOut := cs
    futureOut := fu
    dateRangeOut := dr
    specialOut := sp
    emailOut := em
    regexOut := rx
    positiveOut := pv
    tcknOut := tk
    dateCheckOut := dc
    dateLogicOut := dl
    dateFormatOut := df
    nullPct := violationPct totalRows n.count
    distinctPct := violationPct totalRows d.count
    letterPct := violationPct totalRows lt.count
    numberPct := violationPct totalRows nm.count
    engPct := violationPct totalRows en.count
    trPct := violationPct totalRows tr.count
    casePct := violationPct totalRows cs.count
    futurePct := violationPct totalRows fu.count
    dateRangePct := violationPct totalRows dr.count
    specialPct := violationPct totalRows sp.count
    emailPct := violationPct totalRows em.count
    regexPct := violationPct totalRows rx.count
    positivePct := violationPct totalRows pv.count
    tcknPct := violationPct totalRows tk.count
    dateCheckPct := violationPct totalRows dc.count
    dateLogicPct := violationPct totalRows dl.count
    dateFormatPct := violationPct totalRows df.count }

/-- The tests selected for one column: column_test_map.get(col, []). -/
def lookupTests (m : List (String × List String)) (col : String) : List String :=
  match m.find? (fun q => q.1 == col) with
  | some q => q.2
  | none => []

/-- Membership of a column name in the keys of column_test_map. -/
def testMapHasKey (m : List (String × List String)) (col : String) : Bool :=
  m.any (fun q => q.1 == col)

/-- run_quality_tests: take the catalog columns selected by the test map
(in catalog order), read the shared total row count once from the table
analysis, and compute one metrics row per selected column, lower-casing
the data type as the source does. -/
def run_quality_tests {ρ : Type} (c : QConnector ρ)
    (column_test_map : List (String × List String))
    (custom_test_params : String → ColParams) : List (MetricsRow ρ) :=
  (c.columns.filter (fun q => testMapHasKey column_test_map q.1)).map
    (fun q => computeRow c c.tableAnalysisRowCount
      (lookupTests column_test_map q.1) (custom_test_params q.1) q.1 (pyLower q.2))

/-- The fixed email regex of get_email_format_violation_count (kept only as
an opaque pattern string handed to the regex oracle). -/
def emailRegexStr : String :=
  "^[A-Za-z0-9._%+-]+@[A-Za-z0-9.-]+\\.[A-Za-z]\x7b2,\x7d$"

/-- Python f-string rendering of an optional pattern parameter: None is
interpolated as the four-letter text None. -/
def pyFString (p : Option String) : String :=
  match p with
  | some x => x
  | none => "None"

/-- Minimum of the lengths of the non-null values, as SQL MIN(LENGTH(col)):
NULL (none) on an all-null or empty column. -/
def pgMinLength (tbl : TextTable) : Option Int :=
  match (tbl.filterMap id).map (fun x => (x.data.length : Int)) with
  | [] => none
  | x :: xs => some (xs.foldl min x)

/-- Maximum of the lengths of the non-null values, as SQL MAX(LENGTH(col)). -/
def pgMaxLength (tbl : TextTable) : Option Int :=
  match (tbl.filterMap id).map (fun x => (x.data.length : Int)) with
  | [] => none
  | x :: xs => some (xs.foldl max x)

/-- The Postgres connector over a single text column, as a QConnector whose
rows are the column values.  String-applicable queries are evaluated
against the table; queries whose SQL is ill-typed on a text column (numeric
range and positivity comparisons, date comparisons, correlated date-logic
columns) fail, as they do on the backend.  Regex evaluation is delegated to
the oracle rmatch (pattern, then value). -/
def pgTextConnector (tbl : TextTable) (rmatch : String → String → Bool) :
    QConnector (Option String) where
  columns := [("c", "text")]
  tableAnalysisRowCount := pg_row_count tbl
  get_null_count := fun _ => .ok (pg_get_null_count tbl)
  get_null_violations := fun _ => .ok (pg_get_null_violations tbl 100)
  get_distinct_count := fun _ => .ok (pg_get_distinct_count tbl)
  get_non_distinct_violations := fun _ => .ok (pg_get_non_distinct_violations tbl 100)
  get_min_max_range := fun _ => .error "numeric aggregate on text column"
  get_min_max_violations := fun _ _ _ => .error "numeric comparison on text column"
  get_char_length_range := fun _ =>
    .ok { minLength? := pgMinLength tbl, maxLength? := pgMaxLength tbl }
  get_char_length_violations := fun _ umin umax =>
    .ok ((tbl.filter (fun v =>
      match v with
      | some x => decide ((x.data.length : Int) < umin) ||
          decide (umax < (x.data.length : Int))
      | none => false)).take 100)
  get_letter_count := fun _ => .ok (pg_get_letter_count tbl)
  get_letter_violations := fun _ => .ok (pg_get_letter_violations tbl 100)
  get_number_count := fun _ => .ok (pg_get_number_count tbl)
  get_number_violations := fun _ => .ok (pg_get_number_violations tbl 100)
  get_allowed_values_violation_count := fun _ vals =>
    .ok (tbl.countP (fun v =>
          match v with
          | some x => !vals.contains x
          | none => false),
        tbl.countP (fun v =>
          match v with
          | some x => vals.contains x
          | none => false))
  get_allowed_values_violations := fun _ vals =>
    .ok ((tbl.filter (fun v =>
      match v with
      | some x => !vals.contains x
      | none => false)).take 100)
  get_eng_numeric_format_violation_count := fun _ =>
    .ok (tbl.countP (fun v =>
      match v with
      | some x => x.data.contains ','
      | none => false))
  get_eng_numeric_format_violations := fun _ =>
    .ok ((tbl.filter (fun v =>
      match v with
      | some x => x.data.contains ','
      | none => false)).take 100)
  get_tr_numeric_format_violation_count := fun _ =>
    .ok (tbl.countP (fun v =>
      match v with
      | some x => !x.data.contains ','
      | none => false))
  get_tr_numeric_format_violations := fun _ =>
    .ok ((tbl.filter (fun v =>
      match v with
      | some x => !x.data.contains ','
      | none => false)).take 100)
  get_case_inconsistency_count := fun _ expected =>
    match expected with
    | some "upper" => .ok (tbl.countP (fun v =>
        match v with
        | some x => x != pyUpper x
        | none => false))
    | some "lower" => .ok (tbl.countP (fun v =>
        match v with
        | some x => x != pyLower x
        | none => false))
    | _ => .error "Unsupported case type"
  get_case_inconsistency_violations := fun _ expected =>
    match expected with
    | some "upper" => .ok ((tbl.filter (fun v =>
        match v with
        | some x => x != pyUpper x
        | none => false)).take 100)
    | some "lower" => .ok ((tbl.filter (fun v =>
        match v with
        | some x => x != pyLower x
        | none => false)).take 100)
    | _ => .error "Unsupported case type"
  get_future_date_violation_count := fun _ => .error "date comparison on text column"
  get_future_date_violations := fun _ => .error "date comparison on text column"
  get_date_range_violation_count := fun _ _ _ => .error "date comparison on text column"
  get_date_range_violations := fun _ _ _ => .error "date comparison on text column"
  get_special_char_violation_count := fun _ pat =>
    .ok (tbl.countP (fun v =>
      match v with
      | some x => !rmatch (pyFString pat) x
      | none => false))
  get_special_char_violations := fun _ pat =>
    .ok ((tbl.filter (fun v =>
      match v with
      | some x => !rmatch (pyFString pat) x
      | none => false)).take 100)
  get_email_format_violation_count := fun _ =>
    .ok (tbl.countP (fun v =>
      match v with
      | some x => !rmatch emailRegexStr x
      | none => false))
  get_email_format_violations := fun _ =>
    .ok ((tbl.filter (fun v =>
      match v with
      | some x => !rmatch emailRegexStr x
      | none => false)).take 100)
  get_regex_pattern_violation_count := fun _ pat =>
    .ok (tbl.countP (fun v =>
      match v with
      | some x => !rmatch (pyFString pat) x
      | none => false))
  get_regex_pattern_violations := fun _ pat =>
    .ok ((tbl.filter (fun v =>
      match v with
      | some x => !rmatch (pyFString pat) x
      | none => false)).take 100)
  get_positive_value_violation_count := fun _ _ => .error "numeric comparison on text column"
  get_positive_value_violations := fun _ _ => .error "numeric comparison on text column"
  get_tckn_violation_count := fun _ => .ok (pg_get_tckn_violation_count tbl)
  get_tckn_violations := fun _ limit => .ok (pg_get_tckn_violations tbl limit)
  get_text_column_date_formats := fun _ => .ok (pg_get_text_column_date_formats tbl 1000)
  get_date_logic_violation_count := fun _ _ => .error "undefined column"
  get_date_logic_violations := fun _ _ => .error "undefined column"
  get_date_format_violation_count := fun _ rgx limit =>
    .ok (pg_get_date_format_violation_count tbl (rmatch rgx) limit)
  get_date_format_violations := fun _ rgx =>
    .ok (pg_get_date_format_violations tbl (rmatch rgx) 100)

/-- Override the null-check queries of a connector to raise. -/
def setNullErr {ρ : Type} (c : QConnector ρ) (e : String) : QConnector ρ :=
  { c with
    get_null_count := fun _ => .error e
    get_null_violations := fun _ => .error e }

/-- Override the letter-check queries of a connector to raise. -/
def setLetterErr {ρ : Type} (c : QConnector ρ) (e : String) : QConnector ρ :=
  { c with
    get_letter_count := fun _ => .error e
    get_letter_violations := fun _ => .error e }

/-- Blank the null-check fields of a metrics row, for comparing reports up
to the null check. -/
def eraseNull {ρ : Type} (r : MetricsRow ρ) : MetricsRow ρ :=
  { r with nullOut := SimpleOut.empty, nullPct := none }

/-- Blank the letter-check fields of a metrics row. -/
def eraseLetter {ρ : Type} (r : MetricsRow ρ) : MetricsRow ρ :=
  { r with letterOut := SimpleOut.empty, letterPct := none }

/-- The claim's formulation of the percentage rule: None exactly when the
total row count is zero or the count is missing, the exact rational
count / total * 100 otherwise. -/
def violationPctSpec (totalRows : Nat) (count : Option Nat) : Option ℚ :=
  if totalRows = 0 then none
  else count.map (fun k => (k : ℚ) / (totalRows : ℚ) * 100)

/-- Whether every percentage field of a metrics row satisfies the claimed
percentage rule with respect to a total row count. -/
def pctFieldsOk {ρ : Type} (totalRows : Nat) (r : MetricsRow ρ) : Bool :=
  r.nullPct == violationPctSpec totalRows r.nullOut.count &&
  r.distinctPct == violationPctSpec totalRows r.distinctOut.count &&
  r.letterPct == violationPctSpec totalRows r.letterOut.count &&
  r.numberPct == violationPctSpec totalRows r.numberOut.count &&
  r.engPct == violationPctSpec totalRows r.engOut.count &&
  r.trPct == violationPctSpec totalRows r.trOut.count &&
  r.casePct == violationPctSpec totalRows r.caseOut.count &&
  r.futurePct == violationPctSpec totalRows r.futureOut.count &&
  r.dateRangePct == violationPctSpec totalRows r.dateRangeOut.count &&
  r.specialPct == violationPctSpec totalRows r.specialOut.count &&
  r.emailPct == violationPctSpec totalRows r.emailOut.count &&
  r.regexPct == violationPctSpec totalRows r.regexOut.count &&
  r.positivePct == violationPctSpec totalRows r.positiveOut.count &&
  r.tcknPct == violationPctSpec totalRows r.tcknOut.count &&
  r.dateCheckPct == violationPctSpec totalRows r.dateCheckOut.count &&
  r.dateLogicPct == violationPctSpec totalRows r.dateLogicOut.count &&
  r.dateFormatPct == violationPctSpec totalRows r.dateFormatOut.count

/-- The table and regex oracle of the C2 counterexample run: one column
with a letter-bearing value and a NULL, with the null-check queries
raising. -/
def c2Table : TextTable := [some "Abc", none]

/-- The counterexample connector: the Postgres text connector over c2Table
with its null-check queries overridden to raise. -/
def c2Connector : QConnector (Option String) :=
  setNullErr (pgTextConnector c2Table (fun _ _ => false)) "boom"

/-- A table of 101 rows violating a date-format regex. -/
def c3Table : TextTable := List.replicate 101 (some "x")

/-- A table of 150 NULL rows, for the bounded-sampling witness. -/
def c3WitnessTable : TextTable := List.replicate 150 none

/-- A table of 1001 non-null rows, for the bounded-prefix witness. -/
def c10WitnessTable : TextTable := List.replicate 1001 (some "x")

/-- Auxiliary: the stable sort by key is a permutation of its input. -/
theorem sortByKey_perm {α β : Type} [LinearOrder β] (f : α → β) (l : List α) :
    (sortByKey f l).Perm l :=
  List.perm_insertionSort _ l

/-- Auxiliary: the stable sort by key is sorted by the key. -/
theorem sortByKey_sorted {α β : Type} [LinearOrder β] (f : α → β) (l : List α) :
    List.Sorted (keyLe f) (sortByKey f l) :=
  List.sorted_insertionSort _ l

/-- Auxiliary: the metric-dictionary percentage expression satisfies the
claimed percentage rule. -/
theorem violationPct_eq_spec (totalRows : Nat) (count : Option Nat) :
    violationPct totalRows count = violationPctSpec totalRows count := by
  unfold violationPct violationPctSpec
  rcases totalRows with _ | t <;> simp

/-- C8: create_connector is a pure, stateless mapping from the backend-kind
string to a connector: for the known kinds (mssql, mysql, postgres or
postgresql, oracle, case-insensitively) it returns the corresponding
connector without attempting a connection, and for every unknown kind it
fails with the unsupported-backend error before any connection attempt. -/
theorem create_connector_mapping :
    ∀ s : String,
      (pyLower s = "mssql" → DatabaseFactory_create_connector s = .ok .mssql) ∧
      (pyLower s = "mysql" → DatabaseFactory_create_connector s = .ok .mysql) ∧
      ((pyLower s = "postgres" ∨ pyLower s = "postgresql") →
        DatabaseFactory_create_connector s = .ok .postgres) ∧
      (pyLower s = "oracle" → DatabaseFactory_create_connector s = .ok .oracle) ∧
      (pyLower s ∉ ["mssql", "mysql", "postgres", "postgresql", "oracle"] →
        DatabaseFactory_create_connector s =
          .error ("Unsupported database type: " ++ s)) := by
  intro s
  refine ⟨?_, ?_, ?_, ?_, ?_⟩
  · intro h; simp [DatabaseFactory_create_connector, h]
  · intro h; simp [DatabaseFactory_create_connector, h]
  · rintro (h | h) <;> simp [DatabaseFactory_create_connector, h]
  · intro h; simp [DatabaseFactory_create_connector, h]
  · intro h
    simp only [List.mem_cons, List.not_mem_nil, or_false, not_or] at h
    obtain ⟨h1, h2, h3, h4, h5⟩ := h
    simp [DatabaseFactory_create_connector, h1, h2, h3, h4, h5]

/-- Witness for create_connector_mapping at concrete backend-kind strings. -/
theorem create_connector_mapping_witness :
    DatabaseFactory_create_connector "MsSQL" = .ok .mssql ∧
    DatabaseFactory_create_connector "PostgreSQL" = .ok .postgres ∧
    DatabaseFactory_create_connector "sqlite" =
      .error "Unsupported database type: sqlite" :=
  ⟨(create_connector_mapping "MsSQL").1 (by decide),
   (create_connector_mapping "PostgreSQL").2.2.1 (Or.inr (by decide)),
   (create_connector_mapping "sqlite").2.2.2.2 (by decide)⟩

/-- C9: in every metrics row the reported violation percentage equals
violation_count / total_rows * 100 exactly when the total row count is
nonzero and the count was obtained, and is None when the total row count is
zero, for every percentage column of the report. -/
theorem violation_percentage_rule :
    ∀ (ρ : Type) (c : QConnector ρ) (tm : List (String × List String))
      (ps : String → ColParams),
      (run_quality_tests c tm ps).all
        (fun r => pctFieldsOk c.tableAnalysisRowCount r) = true := by
  intro ρ c tm ps
  unfold run_quality_tests
  rw [List.all_eq_true]
  intro r hr
  rw [List.mem_map] at hr
  obtain ⟨q, _, rfl⟩ := hr
  simp [pctFieldsOk, computeRow, violationPct_eq_spec]

/-- C7 counterexample: the Postgres object listing returns the native
information_schema label BASE TABLE unchanged, which is outside the
normalized TABLE/VIEW kind set the claim requires for every backend. -/
theorem pg_list_objects_raw_kind_counterexample :
    PostgresConnector_get_all_tables_and_views
        [{ tableSchema := "public", tableName := "t", tableType := "BASE TABLE" }]
        "public" = [("t", "BASE TABLE")] ∧
      "BASE TABLE" ≠ "TABLE" ∧ "BASE TABLE" ≠ "VIEW" := by
  refine ⟨by decide, by decide, by decide⟩

/-- C7 amended: the MSSQL, MySQL and Oracle object listings normalize the
kind to TABLE or VIEW, while the Postgres listing returns the backend's
native labels, which are BASE TABLE or VIEW. -/
theorem list_objects_kind_normalization_amended :
    ∀ (catI : List InfoSchemaTable) (catS : List SysObjectRow)
      (allT allV : List (String × String)) (schema : String),
      (MSSQLConnector_get_all_tables_and_views catS schema).all
        (fun q => q.2 == "TABLE" || q.2 == "VIEW") = true ∧
      (MySQLConnector_get_all_tables_and_views catI schema).all
        (fun q => q.2 == "TABLE" || q.2 == "VIEW") = true ∧
      (OracleConnector_get_all_tables_and_views allT allV schema).all
        (fun q => q.2 == "TABLE" || q.2 == "VIEW") = true ∧
      (PostgresConnector_get_all_tables_and_views catI schema).all
        (fun q => q.2 == "BASE TABLE" || q.2 == "VIEW") = true := by
  intro catI catS allT allV schema
  refine ⟨?_, ?_, ?_, ?_⟩
  · rw [List.all_eq_true]
    intro q hq
    rw [MSSQLConnector_get_all_tables_and_views, List.mem_map] at hq
    obtain ⟨r, hr, rfl⟩ := hq
    by_cases h : r.typ == "V" <;> simp [h]
  · rw [List.all_eq_true]
    intro q hq
    rw [MySQLConnector_get_all_tables_and_views, List.mem_map] at hq
    obtain ⟨r, hr, rfl⟩ := hq
    by_cases h : r.tableType == "VIEW" <;> simp [h]
  · rw [List.all_eq_true]
    intro q hq
    rw [OracleConnector_get_all_tables_and_views] at hq
    have hq2 := ((sortByKey_perm _ _).subset hq)
    rw [List.mem_append] at hq2
    rcases hq2 with hq2 | hq2 <;>
      · rw [List.mem_map] at hq2
        obtain ⟨r, _, rfl⟩ := hq2
        simp
  · rw [List.all_eq_true]
    intro q hq
    rw [PostgresConnector_get_all_tables_and_views, List.mem_map] at hq
    obtain ⟨r, hr, rfl⟩ := hq
    have hr2 := (sortByKey_perm _ _).subset hr
    rw [List.mem_filter] at hr2
    have := hr2.2
    simp only [Bool.and_eq_true, Bool.or_eq_true] at this
    simpa using this.2

set_option maxRecDepth 4000 in
/-- C3 counterexample: the Postgres date-format violation sampler applies
no LIMIT clause: on a table of 101 violating rows it returns all 101 rows
even though the configured limit is 100, and the violation count is 101. -/
theorem date_format_violations_unbounded_counterexample :
    (pg_get_date_format_violations c3Table (fun _ => false) 100).length = 101 ∧
    pg_get_date_format_violation_count c3Table (fun _ => false) 100 = 101 := by
  refine ⟨by decide, by decide⟩

/-- C3 amended: the samplers that bind the configured limit to their whole
predicate are bounded: the null sampler of all four backends and the
Postgres non-distinct and TCKN samplers return at most limit rows, the
null sample is nonempty whenever the violation count is positive and the
limit is, and it has exactly limit rows when the count reaches the limit.
The invariant does not hold for every sampler: besides Postgres
get_date_format_violations (the counterexample), Oracle
get_invalid_datetime_violations applies no row bound either, returning
every violating row. -/
theorem bounded_sampling_amended :
    ∀ (tbl : TextTable) (limit : Nat) (invalidp : String → Bool),
      (pg_get_null_violations tbl limit).length ≤ limit ∧
      (mssql_get_null_violations tbl limit).length ≤ limit ∧
      (mysql_get_null_violations tbl limit).length ≤ limit ∧
      (oracle_get_null_violations tbl limit).length ≤ limit ∧
      (pg_get_non_distinct_violations tbl limit).length ≤ limit ∧
      (pg_get_tckn_violations tbl limit).length ≤ limit ∧
      (oracle_get_invalid_datetime_violations tbl invalidp limit).length =
        tbl.countP (fun v =>
          match v with
          | some x => invalidp x
          | none => false) ∧
      (0 < limit → 0 < pg_get_null_count tbl →
        pg_get_null_violations tbl limit ≠ []) ∧
      (limit ≤ pg_get_null_count tbl →
        (pg_get_null_violations tbl limit).length = limit) := by
  intro tbl limit invalidp
  refine ⟨List.length_take_le _ _, List.length_take_le _ _, List.length_take_le _ _,
    List.length_take_le _ _, List.length_take_le _ _, List.length_take_le _ _,
    (List.countP_eq_length_filter _ _).symm, ?_, ?_⟩
  · intro hl hc hnil
    rw [pg_get_null_violations, List.take_eq_nil_iff] at hnil
    rw [pg_get_null_count, List.countP_eq_length_filter] at hc
    rcases hnil with h | h
    · omega
    · rw [h] at hc
      simp at hc
  · intro hc
    rw [pg_get_null_count, List.countP_eq_length_filter] at hc
    rw [pg_get_null_violations, List.length_take]
    omega

set_option maxRecDepth 4000 in
/-- Witness for bounded_sampling_amended: 150 NULL rows sampled at limit
100 give a nonempty sample of exactly 100 rows, and the unbounded Oracle
datetime sampler returns all 101 violating rows of a 101-row table. -/
theorem bounded_sampling_witness :
    (pg_get_null_violations c3WitnessTable 100).length = 100 ∧
    pg_get_null_violations c3WitnessTable 100 ≠ [] ∧
    (oracle_get_invalid_datetime_violations c3Table (fun _ => true) 100).length = 101 := by
  refine ⟨(bounded_sampling_amended c3WitnessTable 100 (fun _ => true)).2.2.2.2.2.2.2.2
      (by decide),
    (bounded_sampling_amended c3WitnessTable 100 (fun _ => true)).2.2.2.2.2.2.2.1
      (by decide) (by decide), ?_⟩
  rw [(bounded_sampling_amended c3Table 100 (fun _ => true)).2.2.2.2.2.2.1]
  decide

/-- C1: for every backend connector and every table, get_columns returns
the table's catalog rows arranged in ordinal (physical) order and projected
to the fixed six-field tuple (name, raw_type, nullable, max_length,
precision, scale): there is an arrangement of exactly the table's catalog
rows, sorted by the ordinal key, whose six-field projection in that fixed
order is the returned list. -/
theorem get_columns_uniform_tuple_shape :
    ∀ (catP catM : List InfoSchemaColumn) (catS : List SysColumnRow)
      (catO : List OraTabColumn) (schema table : String),
      (∃ sel : List InfoSchemaColumn,
        sel.Perm (catP.filter (fun r => r.tableSchema == schema && r.tableName == table)) ∧
        List.Sorted (keyLe (fun r => r.ordinalPosition)) sel ∧
        PostgresConnector_get_columns catP schema table =
          sel.map (fun r => (r.columnName, r.dataType, r.isNullable,
            r.charMaxLength, r.numPrecision, r.numScale))) ∧
      (∃ sel : List InfoSchemaColumn,
        sel.Perm (catM.filter (fun r => r.tableSchema == schema && r.tableName == table)) ∧
        List.Sorted (keyLe (fun r => r.ordinalPosition)) sel ∧
        MySQLConnector_get_columns catM schema table =
          sel.map (fun r => (r.columnName, r.dataType, r.isNullable,
            r.charMaxLength, r.numPrecision, r.numScale))) ∧
      (∃ sel : List SysColumnRow,
        sel.Perm (catS.filter (fun r => r.tableSchema == schema && r.tableName == table)) ∧
        List.Sorted (keyLe (fun r => r.columnId)) sel ∧
        MSSQLConnector_get_columns catS schema table =
          sel.map (fun r => (r.columnName, r.typeName,
            if r.isNullable then "YES" else "NO",
            some r.maxLength, some r.precision, some r.scale))) ∧
      (∃ sel : List OraTabColumn,
        sel.Perm (catO.filter (fun r => r.owner == schema && r.tableName == table)) ∧
        List.Sorted (keyLe (fun r => r.columnId)) sel ∧
        OracleConnector_get_columns catO schema table =
          sel.map (fun r => (r.columnName, r.dataType, r.nullable,
            some r.dataLength, r.dataPrecision, r.dataScale))) := by
  intro catP catM catS catO schema table
  exact ⟨⟨sortByKey _ _, sortByKey_perm _ _, sortByKey_sorted _ _, rfl⟩,
    ⟨sortByKey _ _, sortByKey_perm _ _, sortByKey_sorted _ _, rfl⟩,
    ⟨sortByKey _ _, sortByKey_perm _ _, sortByKey_sorted _ _, rfl⟩,
    ⟨sortByKey _ _, sortByKey_perm _ _, sortByKey_sorted _ _, rfl⟩⟩

/-- C4: for a column with exactly k NULLs, the null check's violation count
equals k, the check passes exactly when k is zero, and when k is positive
it is marked failed and the bounded (limit 100) sample of the NULL rows is
fetched. -/
theorem null_check_pass_fail :
    ∀ (tbl : TextTable) (rm : String → String → Bool) (k : Nat),
      tbl.countP (fun v => v.isNone) = k →
      ∃ r : MetricsRow (Option String),
        run_quality_tests (pgTextConnector tbl rm) [("c", ["null_check"])]
            (fun _ => emptyParams) = [r] ∧
        r.nullOut.count = some k ∧
        r.nullOut.pass = some (if k = 0 then PASS_ICON else FAIL_ICON) ∧
        r.nullOut.sample =
          (if k = 0 then none else some ((tbl.filter (fun v => v.isNone)).take 100)) ∧
        pg_get_null_count tbl = k := by
  intro tbl rm k hk
  have hcount : pg_get_null_count tbl = k := hk
  refine ⟨_, rfl, ?_, ?_, ?_, hcount⟩ <;>
    by_cases h0 : k = 0 <;>
      simp [computeRow, nullBranch, lookupTests, pgTextConnector, hcount, h0,
        pg_get_null_violations]

/-- Witness for null_check_pass_fail: a three-row table with two NULLs
yields violation count 2 and a failed check. -/
theorem null_check_pass_fail_witness :
    List.map (fun r => ((MetricsRow.nullOut r).count, (MetricsRow.nullOut r).pass))
      (run_quality_tests (pgTextConnector [some "a", none, none] (fun _ _ => false))
        [("c", ["null_check"])] (fun _ => emptyParams)) =
      [(some 2, some FAIL_ICON)] := by
  obtain ⟨r, hrun, hcount, hpass, _, _⟩ :=
    null_check_pass_fail [some "a", none, none] (fun _ _ => false) 2 (by decide)
  rw [hrun]
  simp [hcount, hpass]

/-- C10: the free-text date-format check computes its violation count over
a bounded prefix only: get_text_column_date_formats returns the first 1000
non-null rows, each labelled by pattern classification; the date_check
count in the report is the number of sampled rows matching none of the five
recognized patterns; and for a table with more than 1000 non-null rows the
sample, and hence the count, covers exactly 1000 rows. -/
theorem date_check_bounded_sample :
    ∀ (tbl : TextTable) (rm : String → String → Bool),
      pg_get_text_column_date_formats tbl 1000 =
        ((tbl.filterMap id).take 1000).map (fun x =>
          { value := x, format := classifyDateFormat x,
            isValid := matchesAnyDatePattern x }) ∧
      (pg_get_text_column_date_formats tbl 1000).length ≤ 1000 ∧
      (∃ r : MetricsRow (Option String),
        run_quality_tests (pgTextConnector tbl rm) [("c", ["date_check"])]
            (fun _ => emptyParams) = [r] ∧
        r.dateCheckOut.count =
          some (((tbl.filterMap id).take 1000).countP
            (fun x => !matchesAnyDatePattern x))) ∧
      (1000 < (tbl.filterMap id).length →
        (pg_get_text_column_date_formats tbl 1000).length = 1000) := by
  intro tbl rm
  refine ⟨rfl, ?_, ?_, ?_⟩
  · rw [pg_get_text_column_date_formats, List.length_map]
    exact List.length_take_le _ _
  · refine ⟨_, rfl, ?_⟩
    have hc : List.countP (fun r : DateRow => !r.isValid)
        (pg_get_text_column_date_formats tbl 1000) =
        ((tbl.filterMap id).take 1000).countP (fun x => !matchesAnyDatePattern x) := by
      rw [pg_get_text_column_date_formats, List.countP_map]
      rfl
    show (dateCheckBranch (pgTextConnector tbl rm)
        (lookupTests [("c", ["date_check"])] "c") "c").count = _
    rw [dateCheckBranch]
    have hrows : (pgTextConnector tbl rm).get_text_column_date_formats "c" =
        Except.ok (pg_get_text_column_date_formats tbl 1000) := rfl
    simp only [lookupTests]
    norm_num
    rw [hrows]
    split
    · simp_all
    · next rows heq =>
        obtain rfl : pg_get_text_column_date_formats tbl 1000 = rows := by
          injection heq
        split <;> simp [hc]
  · intro h
    rw [pg_get_text_column_date_formats, List.length_map, List.length_take]
    omega

/-- Witness for date_check_bounded_sample: 1001 non-null rows are sampled
down to exactly 1000. -/
theorem date_check_bounded_sample_witness :
    (pg_get_text_column_date_formats c10WitnessTable 1000).length = 1000 :=
  (date_check_bounded_sample c10WitnessTable (fun _ _ => false)).2.2.2
    (by
      have h2 : ∀ l : List String, l.filterMap (id ∘ some) = l := by
        intro l
        induction l with
        | nil => rfl
        | cons a t ih => simp [List.filterMap_cons, ih]
      have h : c10WitnessTable.filterMap id = List.replicate 1001 "x" := by
        show (List.replicate 1001 (some "x")).filterMap id = _
        rw [← List.map_replicate, List.filterMap_map, h2]
      rw [h, List.length_replicate]
      omega)

set_option maxRecDepth 4000 in
/-- C2 counterexample: with the null-check query raising, the run still
produces the letter check's Fail result for the same column (isolation
holds), but the erroring null check records nothing at all: count, pass and
sample are all None, with no error text anywhere, contradicting the claim
that the error is recorded with the error text. -/
theorem run_quality_tests_error_text_counterexample :
    List.map (fun r => ((MetricsRow.nullOut r), (MetricsRow.letterOut r)))
      (run_quality_tests c2Connector [("c", ["null_check", "letter_check"])]
        (fun _ => emptyParams)) =
      [(SimpleOut.empty,
        { count := some 1, pass := some FAIL_ICON, sample := some [some "Abc"] })] := by
  decide

set_option maxRecDepth 8000 in
/-- C2 amended: a failing check's query error is caught per check and the
run continues: the rest of the report is unchanged (equality after blanking
only the failing check's fields), the failing check's own fields become
None, and the error text is attached only by the handlers that format it
(the letter check does; the null check records plain None). -/
theorem run_quality_tests_partial_failure_isolation :
    ∀ (ρ : Type) (c : QConnector ρ) (e : String)
      (tm : List (String × List String)) (ps : String → ColParams),
      ((run_quality_tests (setNullErr c e) tm ps).map eraseNull =
        (run_quality_tests c tm ps).map eraseNull) ∧
      ((run_quality_tests (setNullErr c e) tm ps).all
        (fun r => r.nullOut.count == none && r.nullOut.pass == none &&
          r.nullOut.sample.isNone) = true) ∧
      ((run_quality_tests (setLetterErr c e) tm ps).map eraseLetter =
        (run_quality_tests c tm ps).map eraseLetter) ∧
      ((run_quality_tests (setLetterErr c e) tm ps).all
        (fun r => !(lookupTests tm r.column).contains "letter_check" ||
          (r.letterOut.pass == some (failText e))) = true) := by
  intro ρ c e tm ps
  refine ⟨?_, ?_, ?_, ?_⟩
  · unfold run_quality_tests
    rw [List.map_map, List.map_map]
    rfl
  · unfold run_quality_tests
    rw [List.all_eq_true]
    intro r hr
    rw [List.mem_map] at hr
    obtain ⟨q, _, rfl⟩ := hr
    show ((nullBranch (setNullErr c e) (lookupTests tm q.1) q.1).count == none &&
      (nullBranch (setNullErr c e) (lookupTests tm q.1) q.1).pass == none &&
      (nullBranch (setNullErr c e) (lookupTests tm q.1) q.1).sample.isNone) = true
    rw [nullBranch]
    split <;> rfl
  · unfold run_quality_tests
    rw [List.map_map, List.map_map]
    rfl
  · unfold run_quality_tests
    rw [List.all_eq_true]
    intro r hr
    rw [List.mem_map] at hr
    obtain ⟨q, _, rfl⟩ := hr
    show (!(lookupTests tm q.1).contains "letter_check" ||
      ((letterBranch (setLetterErr c e) (lookupTests tm q.1) q.1).pass ==
        some (failText e))) = true
    rw [letterBranch]
    by_cases hsel : (lookupTests tm q.1).contains "letter_check"
    · rw [if_pos (by simpa using hsel)]
      show (_ || ((SimpleOut.mk none (some (failText e)) none).pass == some (failText e))) = true
      simp
    · have hfalse : (lookupTests tm q.1).contains "letter_check" = false :=
        Bool.not_eq_true _ ▸ eq_false_of_ne_true hsel
      rw [hfalse]
      rfl


/-- C5 counterexample: the value 19090909018 satisfies the claim's
mathematical mod-10 equations (the weighted difference is -29, whose
mathematical mod 10 is 1, the 10th digit), yet every dialect computes the
truncated remainder -9, so the backends count the value as a violation. -/
theorem tckn_mathmod_counterexample :
    tcknClaimValid "19090909018" = true ∧
    tcknValidPg "19090909018" = false ∧
    tcknValidMssql "19090909018" = false ∧
    tcknValidOracle "19090909018" = false ∧
    pg_get_tckn_violation_count [some "19090909018"] = 1 := by
  refine ⟨by decide, by decide, by decide, by decide, by decide⟩

/-- Auxiliary: a digit position is unaffected by setting a different index. -/
theorem dAt_set_of_ne (l : List Char) (j : Nat) (c : Char) (i : Nat)
    (h : j ≠ i - 1) : dAt (l.set j c) i = dAt l i := by
  unfold dAt
  rw [List.getD_eq_getElem?_getD, List.getD_eq_getElem?_getD, List.getElem?_set_ne h]

/-- Auxiliary: the digit at the set position is the written character. -/
theorem dAt_set_self_succ (l : List Char) (j : Nat) (c : Char)
    (h : j < l.length) : dAt (l.set j c) (j + 1) = digitVal c := by
  unfold dAt
  rw [List.getD_eq_getElem?_getD]
  simp [List.getElem?_set_self h]

/-- Auxiliary: the default of getD is irrelevant inside the list. -/
theorem getD_default_irrel (l : List Char) (i : Nat) (hi : i < l.length)
    (d₁ d₂ : Char) : l.getD i d₁ = l.getD i d₂ := by
  rw [List.getD_eq_getElem?_getD, List.getD_eq_getElem?_getD,
    List.getElem?_eq_getElem hi]
  rfl

/-- Auxiliary: every position of an all-digit list holds a digit. -/
theorem digit_getD_of_all (l : List Char) (i : Nat)
    (h : l.all Char.isDigit = true) (hi : i < l.length) (d : Char) :
    (l.getD i d).isDigit = true := by
  rw [List.getD_eq_getElem?_getD, List.getElem?_eq_getElem hi]
  exact List.all_eq_true.mp h _ (List.getElem_mem hi)

/-- Auxiliary: the digit value determines the digit character. -/
theorem digitVal_inj (c d : Char) (hc : c.isDigit = true) (hd : d.isDigit = true)
    (h : digitVal c = digitVal d) : c = d := by
  simp only [Char.isDigit, Bool.and_eq_true, decide_eq_true_eq] at hc hd
  obtain ⟨hc1, hc2⟩ := hc
  obtain ⟨hd1, hd2⟩ := hd
  have hc1n : 48 ≤ c.toNat := hc1
  have hc2n : c.toNat ≤ 57 := hc2
  have hd1n : 48 ≤ d.toNat := hd1
  have hd2n : d.toNat ≤ 57 := hd2
  unfold digitVal at h
  have hval : c.toNat = d.toNat := by omega
  exact Char.ext (UInt32.ext hval)

/-- C5 amended: with the 10th-digit equation read with the dialects'
truncated remainder (equivalently, the claim's mod-10 equations plus the
proviso that seven times the odd-position sum is at least the even-position
sum or their difference is a multiple of ten), a conforming 11-digit value
is counted as valid identically by the Postgres, MSSQL and Oracle
implementations and contributes zero to the violation count, and altering
either check digit (the 10th or 11th) to any other character makes the
value a violation. -/
theorem tckn_checksum_amended :
    ∀ s : String,
      tcknValidMssql s = tcknValidPg s ∧
      tcknValidOracle s = tcknValidPg s ∧
      (tcknValidAmendedCond s = true →
        tcknValidPg s = true ∧ pg_get_tckn_violation_count [some s] = 0) ∧
      (tcknValidPg s = true → ∀ c : Char, c ≠ s.data.getD 9 ' ' →
        tcknValidPg (setCharAt s 9 c) = false) ∧
      (tcknValidPg s = true → ∀ c : Char, c ≠ s.data.getD 10 ' ' →
        tcknValidPg (setCharAt s 10 c) = false) := by
  intro s
  refine ⟨?_, rfl, ?_, ?_, ?_⟩
  · unfold tcknValidPg tcknValidMssql
    cases hl : s.data with
    | nil => rfl
    | cons a t =>
      simp only [List.isEmpty_cons, Bool.not_false, Bool.true_and, List.getD_cons_zero]
      cases ha : ((a :: t).length == 11) <;>
        cases hb : ((a :: t).all Char.isDigit) <;>
        cases hd : (a == '0') <;>
          simp [ha, hb, hd, bne]
  · intro h
    rw [tcknValidAmendedCond, Bool.and_eq_true, Bool.or_eq_true] at h
    obtain ⟨hclaim, hside⟩ := h
    simp only [tcknClaimValid, Bool.and_eq_true, beq_iff_eq, bne_iff_ne,
      decide_eq_true_eq] at hclaim
    obtain ⟨⟨⟨⟨hlen, hdig⟩, hzero⟩, hc1⟩, hc2⟩ := hclaim
    have hX : Int.tmod ((tcknOddSum s.data : Int) * 7 - (tcknEvenSum s.data : Int)) 10 =
        (dAt s.data 10 : Int) := by
      rcases hside with hpos | hz
      · rw [decide_eq_true_eq] at hpos
        rw [Int.tmod_eq_emod (by omega) (by omega)]
        exact hc1
      · rw [beq_iff_eq] at hz
        have hdvd := Int.dvd_of_tmod_eq_zero hz
        have he2 : Int.emod ((tcknOddSum s.data : Int) * 7 - (tcknEvenSum s.data : Int)) 10 = 0 :=
          Int.emod_eq_zero_of_dvd hdvd
        rw [hz, ← hc1]
        exact he2.symm
    have hpg : tcknValidPg s = true := by
      have hne' : s.data.isEmpty = false := by
        cases hd : s.data with
        | nil => rw [hd] at hlen; simp at hlen
        | cons a t => rfl
      simp only [tcknValidPg, tcknCond1, tcknCond2, Bool.and_eq_true, beq_iff_eq,
        bne_iff_ne, Bool.not_eq_true']
      refine ⟨⟨⟨⟨hlen, hne', hdig⟩, hzero⟩, hX⟩, ?_⟩
      rw [Int.tmod_eq_emod (by positivity) (by omega)]
      exact hc2
    refine ⟨hpg, ?_⟩
    simp [pg_get_tckn_violation_count, hpg]
  · intro hval c hne
    simp only [tcknValidPg, tcknCond1, tcknCond2, Bool.and_eq_true, beq_iff_eq,
      bne_iff_ne, Bool.not_eq_true'] at hval
    obtain ⟨⟨⟨⟨hlen, hne2, hdig⟩, hzero⟩, hc1⟩, hc2⟩ := hval
    cases hres : tcknValidPg (setCharAt s 9 c) with
    | false => rfl
    | true =>
      exfalso
      simp only [tcknValidPg, tcknCond1, tcknCond2, Bool.and_eq_true, beq_iff_eq,
        bne_iff_ne, Bool.not_eq_true'] at hres
      obtain ⟨⟨⟨⟨hlen2, hne3, hdig2⟩, hzero2⟩, hc1n⟩, hc2n⟩ := hres
      have hdata : (setCharAt s 9 c).data = s.data.set 9 c := rfl
      have h9 : (9 : Nat) < s.data.length := by omega
      have hodd : tcknOddSum (s.data.set 9 c) = tcknOddSum s.data := by
        unfold tcknOddSum
        rw [dAt_set_of_ne _ _ _ _ (by omega), dAt_set_of_ne _ _ _ _ (by omega),
          dAt_set_of_ne _ _ _ _ (by omega), dAt_set_of_ne _ _ _ _ (by omega),
          dAt_set_of_ne _ _ _ _ (by omega)]
      have heven : tcknEvenSum (s.data.set 9 c) = tcknEvenSum s.data := by
        unfold tcknEvenSum
        rw [dAt_set_of_ne _ _ _ _ (by omega), dAt_set_of_ne _ _ _ _ (by omega),
          dAt_set_of_ne _ _ _ _ (by omega), dAt_set_of_ne _ _ _ _ (by omega)]
      have hd10 : dAt (s.data.set 9 c) 10 = digitVal c := dAt_set_self_succ _ _ _ h9
      rw [hdata, hodd, heven, hd10] at hc1n
      have hcd : digitVal c = dAt s.data 10 := by
        have h2 := hc1.symm.trans hc1n
        exact_mod_cast h2.symm
      have hcdig : c.isDigit = true := by
        have hmem : c ∈ s.data.set 9 c := by
          rw [List.mem_iff_getElem?]
          exact ⟨9, by rw [List.getElem?_set_self (by omega)]⟩
        rw [hdata] at hdig2
        exact List.all_eq_true.mp hdig2 _ hmem
      have holddig : (s.data.getD 9 ' ').isDigit = true :=
        digit_getD_of_all _ _ hdig (by omega) _
      refine hne (digitVal_inj _ _ hcdig holddig ?_)
      rw [hcd]
      unfold dAt
      rw [getD_default_irrel _ _ (by omega) '0' ' ']
  · intro hval c hne
    simp only [tcknValidPg, tcknCond1, tcknCond2, Bool.and_eq_true, beq_iff_eq,
      bne_iff_ne, Bool.not_eq_true'] at hval
    obtain ⟨⟨⟨⟨hlen, hne2, hdig⟩, hzero⟩, hc1⟩, hc2⟩ := hval
    cases hres : tcknValidPg (setCharAt s 10 c) with
    | false => rfl
    | true =>
      exfalso
      simp only [tcknValidPg, tcknCond1, tcknCond2, Bool.and_eq_true, beq_iff_eq,
        bne_iff_ne, Bool.not_eq_true'] at hres
      obtain ⟨⟨⟨⟨hlen2, hne3, hdig2⟩, hzero2⟩, hc1n⟩, hc2n⟩ := hres
      have hdata : (setCharAt s 10 c).data = s.data.set 10 c := rfl
      have h10 : (10 : Nat) < s.data.length := by omega
      have hsum : tcknSum10 (s.data.set 10 c) = tcknSum10 s.data := by
        unfold tcknSum10
        rw [dAt_set_of_ne _ _ _ _ (by omega), dAt_set_of_ne _ _ _ _ (by omega),
          dAt_set_of_ne _ _ _ _ (by omega), dAt_set_of_ne _ _ _ _ (by omega),
          dAt_set_of_ne _ _ _ _ (by omega), dAt_set_of_ne _ _ _ _ (by omega),
          dAt_set_of_ne _ _ _ _ (by omega), dAt_set_of_ne _ _ _ _ (by omega),
          dAt_set_of_ne _ _ _ _ (by omega), dAt_set_of_ne _ _ _ _ (by omega)]
      have hd11 : dAt (s.data.set 10 c) 11 = digitVal c := dAt_set_self_succ _ _ _ h10
      rw [hdata, hsum, hd11] at hc2n
      have hcd : digitVal c = dAt s.data 11 := by
        have h2 := hc2.symm.trans hc2n
        exact_mod_cast h2.symm
      have hcdig : c.isDigit = true := by
        have hmem : c ∈ s.data.set 10 c := by
          rw [List.mem_iff_getElem?]
          exact ⟨10, by rw [List.getElem?_set_self (by omega)]⟩
        rw [hdata] at hdig2
        exact List.all_eq_true.mp hdig2 _ hmem
      have holddig : (s.data.getD 10 ' ').isDigit = true :=
        digit_getD_of_all _ _ hdig (by omega) _
      refine hne (digitVal_inj _ _ hcdig holddig ?_)
      rw [hcd]
      unfold dAt
      rw [getD_default_irrel _ _ (by omega) '0' ' ']


/-- Witness for tckn_checksum_amended at the conforming value 10000000078,
also altering its 10th digit from 7 to 9. -/
theorem tckn_checksum_amended_witness :
    tcknValidPg "10000000078" = true ∧
    pg_get_tckn_violation_count [some "10000000078"] = 0 ∧
    tcknValidPg (setCharAt "10000000078" 9 '9') = false :=
  ⟨((tckn_checksum_amended "10000000078").2.2.1 (by decide)).1,
   ((tckn_checksum_amended "10000000078").2.2.1 (by decide)).2,
   (tckn_checksum_amended "10000000078").2.2.2.1
     (((tckn_checksum_amended "10000000078").2.2.1 (by decide)).1) '9' (by decide)⟩

/-- Auxiliary: filterMap id undoes a map of some. -/
theorem filterMap_id_map_some {α : Type} (l : List α) :
    (l.map some).filterMap id = l := by
  induction l with
  | nil => rfl
  | cons a t ih => simp [List.filterMap_cons, ih]

/-- Auxiliary: on a duplicate-free list every value occurs at most once. -/
theorem countP_beq_le_one_of_nodup {α : Type} [BEq α] [LawfulBEq α]
    (l : List α) (h : l.Nodup) (v : α) :
    l.countP (fun w => w == v) ≤ 1 := by
  induction l with
  | nil => simp
  | cons a t ih =>
    rw [List.countP_cons]
    rcases List.nodup_cons.mp h with ⟨hna, hnt⟩
    by_cases hav : (a == v) = true
    · have hz : t.countP (fun w => w == v) = 0 := by
        rw [List.countP_eq_zero]
        intro w hw hwv
        rw [beq_iff_eq] at hav hwv
        exact hna (by rw [hav, ← hwv]; exact hw)
      simp [hz, hav]
    · simp only [hav, if_false]
      exact Nat.le_trans (Nat.le_of_eq (Nat.add_zero _)) (ih hnt)

/-- Auxiliary: on a duplicate-free list a member occurs exactly once. -/
theorem countP_beq_eq_one_of_nodup {α : Type} [BEq α] [LawfulBEq α]
    (l : List α) (h : l.Nodup) (v : α) (hv : v ∈ l) :
    l.countP (fun w => w == v) = 1 := by
  have hle := countP_beq_le_one_of_nodup l h v
  have hpos : 0 < l.countP (fun w => w == v) :=
    List.countP_pos_iff.mpr ⟨v, hv, beq_self_eq_true v⟩
  omega

/-- Auxiliary: occurrence counts are preserved by wrapping values in some. -/
theorem countP_beq_map_some (l : List String) (y : String) :
    (l.map some).countP (fun w => w == some y) = l.countP (fun w => w == y) := by
  induction l with
  | nil => rfl
  | cons a t ih => simp [List.countP_cons, ih]

/-- C6: for a column whose values are all distinct and non-NULL,
distinct_count equals the row count and the unique count and the distinct
check passes; appending one duplicate of an existing value flips the check
to Fail, and the fetched violation sample is exactly the two rows holding
the duplicated value (so it contains them). -/
theorem distinct_check_boundary :
    ∀ (l : List String) (x : String) (rm : String → String → Bool),
      l.Nodup →
      (pg_get_distinct_count (l.map some) = pg_row_count (l.map some) ∧
       pg_unique_count (l.map some) = pg_row_count (l.map some) ∧
       (∃ r : MetricsRow (Option String),
         run_quality_tests (pgTextConnector (l.map some) rm)
             [("c", ["distinct_check"])] (fun _ => emptyParams) = [r] ∧
         r.distinctOut.pass = some PASS_ICON)) ∧
      (x ∈ l →
        ∃ r : MetricsRow (Option String),
          run_quality_tests (pgTextConnector ((l ++ [x]).map some) rm)
              [("c", ["distinct_check"])] (fun _ => emptyParams) = [r] ∧
          r.distinctOut.pass = some FAIL_ICON ∧
          r.distinctOut.sample =
            some (((l ++ [x]).map some).filter (fun v => v == some x)) ∧
          some x ∈ ((l ++ [x]).map some).filter (fun v => v == some x) ∧
          (((l ++ [x]).map some).filter (fun v => v == some x)).length = 2) := by
  intro l x rm hnd
  have hsome : Function.Injective (some : String → Option String) :=
    fun a b h => Option.some.inj h
  constructor
  · have hdc : pg_get_distinct_count (l.map some) = l.length := by
      rw [pg_get_distinct_count, filterMap_id_map_some, List.dedup_eq_self.mpr hnd]
    have hrow : pg_row_count (l.map some) = l.length := by
      rw [pg_row_count, List.length_map]
    refine ⟨by rw [hdc, hrow], ?_, ?_⟩
    · have hndm : (l.map some).Nodup := hnd.map hsome
      rw [pg_unique_count, List.dedup_eq_self.mpr hndm, hrow]
      have hfix : (l.map some).filter (fun v => (l.map some).count v == 1) = l.map some := by
        apply List.filter_eq_self.mpr
        intro v hv
        rw [beq_iff_eq]
        exact countP_beq_eq_one_of_nodup _ hndm v hv
      rw [hfix, List.length_map]
    · refine ⟨_, rfl, ?_⟩
      show (distinctBranch (pgTextConnector (l.map some) rm)
          (lookupTests [("c", ["distinct_check"])] "c")
          (pgTextConnector (l.map some) rm).tableAnalysisRowCount "c").pass = _
      rw [distinctBranch]
      have hok : (pgTextConnector (l.map some) rm).get_distinct_count "c" =
          .ok (pg_get_distinct_count (l.map some)) := rfl
      have hrowc : (pgTextConnector (l.map some) rm).tableAnalysisRowCount =
          pg_row_count (l.map some) := rfl
      rw [if_pos (by decide : (lookupTests [("c", ["distinct_check"])]
        "c").contains "distinct_check" = true), hok, hrowc, hdc, hrow]
      simp
  · intro hx
    have hdc : pg_get_distinct_count ((l ++ [x]).map some) = l.length := by
      rw [pg_get_distinct_count, filterMap_id_map_some, ← List.card_toFinset,
        List.toFinset_append]
      have h1 : ([x] : List String).toFinset = {x} := by simp
      rw [h1, Finset.union_eq_left.mpr
        (Finset.singleton_subset_iff.mpr (List.mem_toFinset.mpr hx)),
        List.toFinset_card_of_nodup hnd]
    have hrow : pg_row_count ((l ++ [x]).map some) = l.length + 1 := by
      simp [pg_row_count]
    have hcx : ((l ++ [x]).map some).countP (fun w => w == some x) = 2 := by
      rw [countP_beq_map_some, List.countP_append,
        countP_beq_eq_one_of_nodup _ hnd x hx]
      simp
    have hlen2 : (((l ++ [x]).map some).filter (fun v => v == some x)).length = 2 := by
      rw [← List.countP_eq_length_filter]
      exact hcx
    have hsample : pg_get_non_distinct_violations ((l ++ [x]).map some) 100 =
        ((l ++ [x]).map some).filter (fun v => v == some x) := by
      rw [pg_get_non_distinct_violations]
      refine Eq.trans (congrArg (List.take 100) (List.filter_congr ?_))
        (List.take_of_length_le ?_)
      · intro v hv
        rw [List.mem_map] at hv
        obtain ⟨y, hy, rfl⟩ := hv
        show decide (1 < ((l ++ [x]).map some).countP (fun w => w == some y)) =
          (some y == some x)
        rw [countP_beq_map_some, List.countP_append]
        by_cases hyx : y = x
        · subst hyx
          rw [countP_beq_eq_one_of_nodup _ hnd y hx]
          simp
        · have h1 : l.countP (fun w => w == y) ≤ 1 := countP_beq_le_one_of_nodup l hnd y
          have h2 : List.countP (fun w => w == y) [x] = 0 := by
            rw [List.countP_eq_zero]
            intro w hw hwv
            rw [beq_iff_eq] at hwv
            rcases List.mem_singleton.mp hw with rfl
            exact hyx hwv.symm
          rw [h2]
          have hne : ¬ (1 < l.countP (fun w => w == y) + 0) := by omega
          have hne2 : (some y == some x) = false := by
            rw [beq_eq_false_iff_ne]
            intro hcontra
            exact hyx (Option.some.inj hcontra)
          rw [hne2]
          exact decide_eq_false hne
      · rw [hlen2]
        omega
    have hok : (pgTextConnector ((l ++ [x]).map some) rm).get_distinct_count "c" =
        .ok (pg_get_distinct_count ((l ++ [x]).map some)) := rfl
    have hok2 : (pgTextConnector ((l ++ [x]).map some) rm).get_non_distinct_violations "c" =
        .ok (pg_get_non_distinct_violations ((l ++ [x]).map some) 100) := rfl
    have hrowc : (pgTextConnector ((l ++ [x]).map some) rm).tableAnalysisRowCount =
        pg_row_count ((l ++ [x]).map some) := rfl
    refine ⟨_, rfl, ?_, ?_, ?_, hlen2⟩
    · show (distinctBranch (pgTextConnector ((l ++ [x]).map some) rm)
          (lookupTests [("c", ["distinct_check"])] "c")
          (pgTextConnector ((l ++ [x]).map some) rm).tableAnalysisRowCount "c").pass = _
      rw [distinctBranch, if_pos (by decide : (lookupTests [("c", ["distinct_check"])]
        "c").contains "distinct_check" = true), hok, hok2, hrowc, hdc, hrow]
      change ((if (l.length == l.length + 1) = true then _ else _ : SimpleOut (Option String))).pass = _
      rw [if_neg (by simp only [beq_iff_eq]; omega)]
    · show (distinctBranch (pgTextConnector ((l ++ [x]).map some) rm)
          (lookupTests [("c", ["distinct_check"])] "c")
          (pgTextConnector ((l ++ [x]).map some) rm).tableAnalysisRowCount "c").sample = _
      rw [distinctBranch, if_pos (by decide : (lookupTests [("c", ["distinct_check"])]
        "c").contains "distinct_check" = true), hok, hok2, hrowc, hdc, hrow]
      change ((if (l.length == l.length + 1) = true then _ else _ : SimpleOut (Option String))).sample = _
      rw [if_neg (by simp only [beq_iff_eq]; omega)]
      show some (pg_get_non_distinct_violations ((l ++ [x]).map some) 100) = _
      rw [hsample]
    · rw [List.mem_filter]
      refine ⟨?_, by simp⟩
      rw [List.mem_map]
      exact ⟨x, by simp, rfl⟩

/-- Witness for distinct_check_boundary on the two-row table a, b with the
duplicate a appended. -/
theorem distinct_check_boundary_witness :
    pg_get_distinct_count (["a", "b"].map some) = 2 ∧
    List.map (fun r => (MetricsRow.distinctOut r).pass)
      (run_quality_tests (pgTextConnector ((["a", "b"] ++ ["a"]).map some)
          (fun _ _ => false))
        [("c", ["distinct_check"])] (fun _ => emptyParams)) = [some FAIL_ICON] := by
  have h := distinct_check_boundary ["a", "b"] "a" (fun _ _ => false) (by decide)
  constructor
  · exact h.1.1.trans (by decide)
  · obtain ⟨r, hrun, hpass, _⟩ := h.2 (by decide)
    rw [hrun]
    simp [hpass]

end DataProfiler

